import Mathlib

/-!
Verification of the citation normalization and metadata-fusion pipeline of the
`anum-papers-db` repository (`citation_parser.py`, `db.py`, `models.py`, and the
`enrich_entry_from_crossref` helper of `app.py`).

Text is modelled as `List Char` (`Str`).  Python regular-expression searches are
embedded as deterministic scanners that reproduce the leftmost-match and
greedy/lazy backtracking behaviour of the concrete patterns in the source.
External metadata providers (GROBID, Crossref via habanero, OpenAlex) perform
network I/O; they are modelled as oracle functions carried in a `ProviderEnv`
record together with their availability flags, exactly as the source consults
`GROBID_AVAILABLE` / `HABANERO_AVAILABLE` / `OPENALEX_AVAILABLE`.  The SQLite
store of `db.py` is modelled as in-memory lists of rows with an autoincrement
counter; `INSERT OR REPLACE` on `entry_authors` is keyed on
(entry_id, author_id) following the one-link-per-(work, author) invariant of
the schema.  Timestamps (`created_at`/`updated_at`) are environment-dependent
and carry no information used by any claim, so rows are modelled without them.
-/

set_option maxRecDepth 20000

namespace AnumPapers

/-- Text, modelled as a list of characters. -/
abbrev Str := List Char

/-- Python `\s` / `str.strip()` whitespace over ASCII text. -/
def isPySpace (c : Char) : Bool :=
  c = ' ' || c = '\t' || c = '\n' || c = '\r' || c = '\x0b' || c = '\x0c'

/-- ASCII decimal digit (`\d`, `str.isdigit` on ASCII). -/
def isDigitC (c : Char) : Bool := '0' ≤ c && c ≤ '9'

/-- ASCII upper-case letter (`[A-Z]`). -/
def isUpperC (c : Char) : Bool := 'A' ≤ c && c ≤ 'Z'

/-- ASCII lower-case letter (`[a-z]`). -/
def isLowerC (c : Char) : Bool := 'a' ≤ c && c ≤ 'z'

/-- ASCII letter (`[a-z]` under `re.IGNORECASE`). -/
def isAlphaC (c : Char) : Bool := isUpperC c || isLowerC c

/-- Regex word character (`\w` over ASCII), used for `\b` boundaries. -/
def isWordC (c : Char) : Bool := isAlphaC c || isDigitC c || c = '_'

/-- ASCII lower-casing of one character (`str.lower` / SQLite `LOWER`,
both of which only fold ASCII on the ASCII fragment modelled here). -/
def lowerC (c : Char) : Char :=
  if isUpperC c then Char.ofNat (c.toNat + 32) else c

/-- Lower-case a text. -/
def lowerS (s : Str) : Str := s.map lowerC

/-- `str.strip()`: drop leading and trailing Python whitespace. -/
def pyStrip (s : Str) : Str :=
  ((s.dropWhile isPySpace).reverse.dropWhile isPySpace).reverse

/-- SQLite `TRIM`: drops leading and trailing space (0x20) characters only. -/
def sqlTrim (s : Str) : Str :=
  ((s.dropWhile (· = ' ')).reverse.dropWhile (· = ' ')).reverse

/-- `str.rstrip('*')`. -/
def rstripStars (s : Str) : Str := (s.reverse.dropWhile (· = '*')).reverse

/-- `re.sub(r'\*+', '', name)`: remove every asterisk. -/
def removeStars (s : Str) : Str := s.filter (· ≠ '*')

theorem length_dropWhile_le_self (p : Char → Bool) (l : Str) :
    (l.dropWhile p).length ≤ l.length := by
  induction l with
  | nil => simp [List.dropWhile]
  | cons c rest ih =>
    simp only [List.dropWhile]
    split
    · exact Nat.le_succ_of_le ih
    · exact Nat.le_refl _

/-- Fuel-bounded body of `collapseWs`; each step consumes at least one
character, so fuel `s.length` always suffices. -/
def collapseWsGo : Nat → Str → Str
  | 0, _ => []
  | _ + 1, [] => []
  | fuel + 1, c :: rest =>
    if isPySpace c then ' ' :: collapseWsGo fuel (rest.dropWhile isPySpace)
    else c :: collapseWsGo fuel rest

/-- `re.sub(r'\s+', ' ', s)`: collapse each whitespace run to one space. -/
def collapseWs (s : Str) : Str := collapseWsGo s.length s

/-- `citation_parser.normalize_author_name`: strip asterisk markers, trim,
collapse internal whitespace runs to single spaces. -/
def normalize_author_name (s : Str) : Str :=
  collapseWs (pyStrip (removeStars s))

/-- Python truthiness of an optional string (`None` and `""` are falsy). -/
def truthyS : Option Str → Bool
  | none => false
  | some s => !s.isEmpty

/-- Python truthiness of an optional integer (`None` and `0` are falsy). -/
def truthyI : Option Int → Bool
  | none => false
  | some n => n ≠ 0

/-- Python `a or b` on optional strings. -/
def pyOrS (a b : Option Str) : Option Str := if truthyS a then a else b

/-- Python `a or b` on optional integers. -/
def pyOrI (a b : Option Int) : Option Int := if truthyI a then a else b

/-- Python `a or b` where `a` is an optional list and `b` a list
(`None` and `[]` are falsy). -/
def pyOrL (a : Option (List Str)) (b : List Str) : List Str :=
  match a with
  | none => b
  | some l => if l.isEmpty then b else l

/-- Python `hay.find(needle)`: index of first occurrence, or `none`. -/
def findSub : Str → Str → Option Nat
  | _, [] => some 0
  | [], _ :: _ => none
  | c :: rest, d :: needle =>
    if (d :: needle).isPrefixOf (c :: rest) then some 0
    else (findSub rest (d :: needle)).map (· + 1)

/-- Substring containment, Python `needle in hay`. -/
def containsSub (hay needle : Str) : Bool := (findSub hay needle).isSome

/-- Python `s.endswith('.')`. -/
def endsWithDot (s : Str) : Bool := s.getLast? = some '.'

/-- Fuel-bounded body of `pySplitWs`; fuel `s.length` always suffices. -/
def pySplitWsGo : Nat → Str → List Str
  | 0, _ => []
  | _ + 1, [] => []
  | fuel + 1, c :: rest =>
    if isPySpace c then pySplitWsGo fuel (rest.dropWhile isPySpace)
    else
      let w := rest.takeWhile (fun x => !isPySpace x)
      (c :: w) :: pySplitWsGo fuel (rest.drop w.length)

/-- Split a text on whitespace runs, as Python `str.split()` (no empties). -/
def pySplitWs (s : Str) : List Str := pySplitWsGo s.length s

/-- Render a natural number in decimal, as Python `str(n)` for `n ≥ 0`. -/
def natToStr (n : Nat) : Str := Nat.toDigits 10 n

/-- Numeric value of a run of decimal digits, as Python `int`. -/
def digitsToNat (ds : Str) : Nat := ds.foldl (fun a c => a * 10 + (c.toNat - 48)) 0

/-- Python `s.replace(needle, repl)`: non-overlapping, left to right.
`fuel` bounds the scan; callers pass `s.length + 1`, which always suffices. -/
def replaceSub (needle repl : Str) : Nat → Str → Str
  | 0, s => s
  | _ + 1, [] => []
  | fuel + 1, c :: rest =>
    if needle.isPrefixOf (c :: rest) && !needle.isEmpty then
      repl ++ replaceSub needle repl fuel ((c :: rest).drop needle.length)
    else c :: replaceSub needle repl fuel rest

/-! ### Regex scanners for `parse_citation_fallback` (citation_parser.py 538-885)

Each Python `re.search` is embedded as a per-position matcher plus a scan over
start positions, reproducing leftmost-match semantics; greedy and lazy
quantifier backtracking is resolved deterministically where, as in every
pattern below, the adjacent character classes are disjoint. -/

/-- Capture of `([^\s\)]+)`: maximal run of non-whitespace, non-`)` chars. -/
def doiRun (s : Str) : Str := s.takeWhile (fun c => !isPySpace c && c ≠ ')')

/-- Try `doi:([^\s\)]+)` (case-insensitive) anchored at the head of `s`. -/
def doiColonAt (s : Str) : Option Str :=
  if lowerS (s.take 4) = "doi:".data then
    let r := doiRun (s.drop 4)
    if r.isEmpty then none else some r
  else none

/-- `re.search(r'doi:([^\s\)]+)', s, re.IGNORECASE)`: leftmost match's group. -/
def searchDoiColon : Str → Option Str
  | [] => none
  | c :: rest =>
    match doiColonAt (c :: rest) with
    | some r => some r
    | none => searchDoiColon rest

/-- Try `https?://(?:dx\.)?doi\.org/([^\s\)]+)` (case-insensitive) at the
head of `s`.  The two optional pieces need no real backtracking: `s` vs `://`
and `dx.` vs `doi.org/` cannot both prefix-match the same text. -/
def doiUrlAt (s : Str) : Option Str :=
  if lowerS (s.take 4) = "http".data then
    let s1 := s.drop 4
    let s2 := if lowerS (s1.take 1) = "s".data then s1.drop 1 else s1
    if lowerS (s2.take 3) = "://".data then
      let s3 := s2.drop 3
      let s4 := if lowerS (s3.take 3) = "dx.".data then s3.drop 3 else s3
      if lowerS (s4.take 8) = "doi.org/".data then
        let r := doiRun (s4.drop 8)
        if r.isEmpty then none else some r
      else none
    else none
  else none

/-- Leftmost match of the DOI-URL pattern. -/
def searchDoiUrl : Str → Option Str
  | [] => none
  | c :: rest =>
    match doiUrlAt (c :: rest) with
    | some r => some r
    | none => searchDoiUrl rest

/-- `citation_parser.extract_doi` (lines 295-307): a `doi:`-prefixed token,
else a `(dx.)doi.org` URL; the group is `.strip()`ed. -/
def extract_doi (s : Str) : Option Str :=
  match searchDoiColon s with
  | some g => some (pyStrip g)
  | none =>
    match searchDoiUrl s with
    | some g => some (pyStrip g)
    | none => none

/-- `citation_parser.extract_doi_from_url` (lines 309-316). -/
def extract_doi_from_url (url : Str) : Option Str :=
  if url.isEmpty then none
  else (searchDoiUrl url).map pyStrip

/-- Try `\((\d{4})\)` at the head of `s`: `(`-char, exactly four digits, `)`. -/
def yearAt (s : Str) : Option Nat :=
  match s with
  | '(' :: rest =>
    if (rest.take 4).length = 4 && (rest.take 4).all isDigitC then
      match rest.drop 4 with
      | ')' :: _ => some (digitsToNat (rest.take 4))
      | _ => none
    else none
  | _ => none

/-- `re.search(r'\((\d{4})\)', s)`: the first parenthesised 4-digit year. -/
def searchYear : Str → Option Nat
  | [] => none
  | c :: rest =>
    match yearAt (c :: rest) with
    | some y => some y
    | none => searchYear rest

/-- One repetition `\s+[A-Z][a-z]+` of volume pattern 1's venue group:
returns the matched characters and the remainder. -/
def p1NextWord (s : Str) : Option (Str × Str) :=
  let ws := s.takeWhile isPySpace
  if ws.isEmpty then none
  else
    match s.drop ws.length with
    | c :: rest =>
      if isUpperC c then
        let low := rest.takeWhile isLowerC
        if low.isEmpty then none
        else some (ws ++ c :: low, rest.drop low.length)
      else none
    | [] => none

/-- Tail `\s+(\d+)\s*,\s*([a-z]?\d+)` of volume pattern 1: returns the
volume digits and the article-id group. -/
def p1Tail (s : Str) : Option (Str × Str) :=
  let ws := s.takeWhile isPySpace
  if ws.isEmpty then none
  else
    let s1 := s.drop ws.length
    let ds := s1.takeWhile isDigitC
    if ds.isEmpty then none
    else
      match (s1.drop ds.length).dropWhile isPySpace with
      | ',' :: s3 =>
        let s4 := s3.dropWhile isPySpace
        match s4 with
        | c :: rest =>
          if isLowerC c then
            let ds2 := rest.takeWhile isDigitC
            -- `[a-z]?` backtracks to empty on failure, but then `\d+` would
            -- have to match the same lower-case letter, so it fails outright
            if ds2.isEmpty then none else some (ds, c :: ds2)
          else
            let ds2 := s4.takeWhile isDigitC
            if ds2.isEmpty then none else some (ds, ds2)
        | [] => none
      | _ => none

/-- Venue words `[A-Z][a-z]+(?:\s+[A-Z][a-z]+)*` (greedy, with backtracking)
followed by `p1Tail`; `fuel` bounds the word chain. -/
def p1FromVenue (venue : Str) (s : Str) : Nat → Option (Str × Str × Str)
  | 0 => none
  | fuel + 1 =>
    match p1NextWord s with
    | some (w, rest) =>
      match p1FromVenue (venue ++ w) rest fuel with
      | some r => some r
      | none => (p1Tail s).map (fun p => (venue, p.1, p.2))
    | none => (p1Tail s).map (fun p => (venue, p.1, p.2))

/-- Volume pattern 1 `([A-Z][a-z]+(?:\s+[A-Z][a-z]+)*)\s+(\d+)\s*,\s*([a-z]?\d+)`
tried at the head of `s`. -/
def p1At (s : Str) : Option (Str × Str × Str) :=
  match s with
  | c :: rest =>
    if isUpperC c then
      let low := rest.takeWhile isLowerC
      if low.isEmpty then none
      else p1FromVenue (c :: low) (rest.drop low.length) s.length
    else none
  | [] => none

/-- Leftmost match of volume pattern 1, with its start index. -/
def p1SearchAux : Nat → Str → Option (Nat × Str × Str × Str)
  | _, [] => none
  | i, c :: rest =>
    match p1At (c :: rest) with
    | some (v, d, a) => some (i, v, d, a)
    | none => p1SearchAux (i + 1) rest

def p1Search (s : Str) : Option (Nat × Str × Str × Str) := p1SearchAux 0 s

/-- Volume pattern 2 `(?:vol\.?\s*)?(\d+)\s*,\s*(?:no\.?\s*)?(\d+)`
(case-insensitive) at the head of `s`.  The leading optional `vol.` shifts
only the match start, never the captured digit groups, so it is not scanned. -/
def p2At (s : Str) : Option (Str × Str) :=
  let ds := s.takeWhile isDigitC
  if ds.isEmpty then none
  else
    match (s.drop ds.length).dropWhile isPySpace with
    | ',' :: s2 =>
      let s3 := s2.dropWhile isPySpace
      let s4 :=
        if lowerS (s3.take 2) = "no".data then
          let t := s3.drop 2
          let t1 := if t.take 1 = ['.'] then t.drop 1 else t
          t1.dropWhile isPySpace
        else s3
      let ds2 := s4.takeWhile isDigitC
      if !ds2.isEmpty then some (ds, ds2)
      else
        -- backtrack: drop the optional `no` prefix and require digits directly
        let ds3 := s3.takeWhile isDigitC
        if ds3.isEmpty then none else some (ds, ds3)
    | _ => none

/-- Leftmost match of volume pattern 2 (groups only). -/
def p2Search : Str → Option (Str × Str)
  | [] => none
  | c :: rest =>
    match p2At (c :: rest) with
    | some r => some r
    | none => p2Search rest

/-- Volume pattern 3 `\b(\d{3,4})\s*,`: a word boundary, a maximal digit run
of length exactly 3 or 4, then optional spaces and a comma.  `prev` is the
character before the current position, for the `\b` test. -/
def p3Aux : Option Char → Nat → Str → Option (Nat × Str)
  | _, _, [] => none
  | prev, i, c :: rest =>
    let boundaryOk := match prev with | none => true | some p => !isWordC p
    let run := (c :: rest).takeWhile isDigitC
    if boundaryOk && isDigitC c && (run.length = 3 || run.length = 4) &&
        (match ((c :: rest).drop run.length).dropWhile isPySpace with
         | ',' :: _ => true
         | _ => false) then
      some (i, run)
    else p3Aux (some c) (i + 1) rest

def p3Search (s : Str) : Option (Nat × Str) := p3Aux none 0 s

/-- Pages pattern `pp\.\s*([^,\s]+)` (case-insensitive) at the head of `s`. -/
def ppAt (s : Str) : Option Str :=
  if lowerS (s.take 3) = "pp.".data then
    let s1 := (s.drop 3).dropWhile isPySpace
    let run := s1.takeWhile (fun c => !isPySpace c && c ≠ ',')
    if run.isEmpty then none else some run
  else none

/-- Leftmost match of the pages pattern. -/
def ppSearch : Str → Option Str
  | [] => none
  | c :: rest =>
    match ppAt (c :: rest) with
    | some r => some r
    | none => ppSearch rest

/-- Title-start pattern `\.\s+([A-Z][^.]{20,})` tested at the head of `s`:
a period, whitespace, a capital, then at least 20 further non-period chars. -/
def titleStartAt (s : Str) : Bool :=
  match s with
  | '.' :: rest =>
    let ws := rest.takeWhile isPySpace
    if ws.isEmpty then false
    else
      match rest.drop ws.length with
      | c :: rest2 => isUpperC c && (rest2.takeWhile (· ≠ '.')).length ≥ 20
      | [] => false
  | _ => false

/-- `re.finditer(r'\.\s+([A-Z][^.]{20,})', s)` first match's start index. -/
def titleStartSearchAux : Nat → Str → Option Nat
  | _, [] => none
  | i, c :: rest =>
    if titleStartAt (c :: rest) then some i
    else titleStartSearchAux (i + 1) rest

def titleStartSearch (s : Str) : Option Nat := titleStartSearchAux 0 s

/-! ### Book-chapter pattern
`\.\s+([^.]{10,}?)\s*\.\s+in\s+([^(]+?)\s*\(([^)]+),\s*(\d{4})\)` (ci). -/

/-- Resolve `\s+([^.]{10,}?)\s*` against the full inter-period content:
the greedy `\s+` keeps as much leading whitespace as the lazy 10-char-minimum
group allows, and the lazy group ends where only whitespace remains.  Returns
the group-1 characters. -/
def bcGroup1 (full : Str) : Option Str :=
  let w := (full.takeWhile isPySpace).length
  if w ≥ 1 && full.length ≥ 11 then
    let rest0 := full.drop (min w (full.length - 10))
    some (rest0.take (max 10 (rest0.reverse.dropWhile isPySpace).length))
  else none

/-- Resolve the tail `\s+in\s+([^(]+?)\s*\(([^)]+),\s*(\d{4})\)` after the
period closing group 1: returns the book-title group and the year. -/
def bcTail (s : Str) : Option (Str × Nat) :=
  let ws2 := s.takeWhile isPySpace
  if ws2.isEmpty then none
  else
    let s1 := s.drop ws2.length
    if lowerS (s1.take 2) = "in".data then
      let s2 := s1.drop 2
      let stuff := s2.takeWhile (· ≠ '(')
      match s2.drop stuff.length with
      | '(' :: s3 =>
        let ws3len := min (stuff.takeWhile isPySpace).length (stuff.length - 1)
        if ws3len ≥ 1 then
          let rest3 := stuff.drop ws3len
          let g2 := rest3.take (max 1 (rest3.reverse.dropWhile isPySpace).length)
          let v := s3.takeWhile (· ≠ ')')
          match s3.drop v.length with
          | ')' :: _ =>
            if v.length ≥ 6 && (v.drop (v.length - 4)).all isDigitC then
              match (v.take (v.length - 4)).reverse.dropWhile isPySpace with
              | ',' :: pre =>
                -- `([^)]+)` needs at least one character before the comma
                if pre.isEmpty then none
                else some (g2, digitsToNat (v.drop (v.length - 4)))
              | _ => none
            else none
          | _ => none
        else none
      | _ => none
    else none

/-- The book-chapter pattern tried at the head of `s` (a period position).
Returns (chapter-title group, book-title group, year). -/
def bookChapterAt (s : Str) : Option (Str × Str × Nat) :=
  match s with
  | '.' :: rest =>
    let full := rest.takeWhile (· ≠ '.')
    match rest.drop full.length with
    | '.' :: after =>
      match bcGroup1 full with
      | some g1 => (bcTail after).map (fun p => (g1, p.1, p.2))
      | none => none
    | _ => none
  | _ => none

/-- Leftmost match of the book-chapter pattern (citation_parser.py line 717). -/
def bookChapterSearch : Str → Option (Str × Str × Nat)
  | [] => none
  | c :: rest =>
    match bookChapterAt (c :: rest) with
    | some r => some r
    | none => bookChapterSearch rest

/-! ### Author-block parsing (citation_parser.py lines 624-714). -/

/-- Append the normalised name when truthy (the `if normalized:` guards). -/
def emitList (nm : Str) : List Str :=
  let n := normalize_author_name nm
  if n.isEmpty then [] else [n]

/-- The `if current and len(current) >= 2` standalone-name emission. -/
def soloList (current : Str) : List Str :=
  if current.length ≥ 2 then emitList (rstripStars current) else []

/-- Fuel-bounded body of `authorsLoop`; every branch advances at least one
part, so fuel `l.length` always suffices. -/
def authorsLoopGo : Nat → List Str → List Str
  | 0, _ => []
  | _ + 1, [] => []
  | _ + 1, [current] => soloList current
  | fuel + 1, current :: next :: rest =>
    if endsWithDot next then
      emitList (rstripStars (current ++ ", ".data ++ next)) ++ authorsLoopGo fuel rest
    else if containsSub next ['.'] && next.length ≤ 6 then
      if rest.isEmpty || (pyStrip (rest.headD [])).isEmpty then
        emitList (rstripStars (current ++ ", ".data ++ next ++ ['.'])) ++
          authorsLoopGo fuel rest
      else
        match rest with
        | third :: rest2 =>
          if endsWithDot third then
            emitList (rstripStars (current ++ ", ".data ++ next ++ ", ".data ++ third))
              ++ authorsLoopGo fuel rest2
          else
            soloList current ++ authorsLoopGo fuel (next :: third :: rest2)
        | [] => []
    else
      match rest with
      | third :: rest2 =>
        if endsWithDot third then
          emitList (rstripStars (current ++ ", ".data ++ next ++ ", ".data ++ third))
            ++ authorsLoopGo fuel rest2
        else
          soloList current ++ authorsLoopGo fuel (next :: third :: rest2)
      | [] => soloList current ++ authorsLoopGo fuel [next]

/-- The surname/initials pairing loop over the comma-separated author parts. -/
def authorsLoop (l : List Str) : List Str := authorsLoopGo l.length l

/-- Comma-split author parts: `" & "` replaced by `", "`, split on commas,
stripped, empties removed (lines 627-632). -/
def authorParts (authorText : Str) : List Str :=
  (((replaceSub " & ".data ", ".data (authorText.length + 1) authorText).splitOn ',').map
    pyStrip).filter (fun p => !p.isEmpty)

/-! ### Parts, title selection, venue, date, location (lines 618, 764-871). -/

/-- `[p.strip() for p in s.split('.') if p.strip() and len(p.strip()) > 1]`. -/
def nontrivialParts (s : Str) : List Str :=
  ((s.splitOn '.').map pyStrip).filter (fun p => p.length > 1)

/-- Full match of `^[A-Z]\.\s*[A-Z]\.?$` (bare-initials shape). -/
def initialsLike (s : Str) : Bool :=
  match s with
  | c1 :: '.' :: rest =>
    if isUpperC c1 then
      match rest.dropWhile isPySpace with
      | c2 :: rest3 => isUpperC c2 && (rest3 = [] || rest3 = ['.'])
      | [] => false
    else false
  | _ => false

/-- The per-part skip conditions of the title-candidate loop (lines 785-789). -/
def titleSkip (p : Str) : Bool :=
  decide (p.length < 10) || p.headD ' ' = '(' || containsSub (lowerS p) "doi:".data ||
    isDigitC (p.headD ' ') || initialsLike (pyStrip p)

/-- Title candidates `(len(part), word_count, i, part)` over `parts[1:]`. -/
def titleCandidates (parts : List Str) : List (Nat × Nat × Nat × Str) :=
  ((parts.drop 1).enumFrom 1).filterMap (fun x =>
    if titleSkip x.2 then none
    else
      let wc := (pySplitWs x.2).length
      if wc > 3 then some (x.2.length, wc, x.1, x.2) else none)

/-- Python `max(..., key=lambda x: (x[1], x[0]))`: first maximum wins ties. -/
def maxCand : List (Nat × Nat × Nat × Str) → Option (Nat × Nat × Nat × Str)
  | [] => none
  | x :: rest =>
    some (rest.foldl
      (fun best y =>
        if best.2.1 < y.2.1 || (best.2.1 = y.2.1 && best.1 < y.1) then y else best) x)

/-- Title selection (lines 772-810): the ranked candidate, else `parts[1]`
when it has more than three words, else nothing. -/
def selectTitle (parts : List Str) : Option (Str × Nat) :=
  match maxCand (titleCandidates parts) with
  | some best => some (best.2.2.2, best.2.2.1)
  | none =>
    if parts.length > 1 then
      match parts.drop 1 with
      | p1 :: _ => if (pySplitWs p1).length > 3 then some (p1, 1) else none
      | [] => none
    else none

/-- `re.sub(r'\s+[a-z]+\.\d+', ...)` match length at the head of `s` (ci). -/
def sub1At (s : Str) : Option Nat :=
  let ws := s.takeWhile isPySpace
  if ws.isEmpty then none
  else
    let s1 := s.drop ws.length
    let letters := s1.takeWhile isAlphaC
    if letters.isEmpty then none
    else
      match s1.drop letters.length with
      | '.' :: s2 =>
        let ds := s2.takeWhile isDigitC
        if ds.isEmpty then none
        else some (ws.length + letters.length + 1 + ds.length)
      | _ => none

/-- `re.sub(r'\s+vol\.?\s*\d+', ...)` match length at the head of `s` (ci). -/
def sub2At (s : Str) : Option Nat :=
  let ws := s.takeWhile isPySpace
  if ws.isEmpty then none
  else
    let s1 := s.drop ws.length
    if lowerS (s1.take 3) = "vol".data then
      let t := s1.drop 3
      let dotLen := if t.take 1 = ['.'] then 1 else 0
      let t1 := t.drop dotLen
      let ws2 := t1.takeWhile isPySpace
      let ds := (t1.drop ws2.length).takeWhile isDigitC
      if ds.isEmpty then none
      else some (ws.length + 3 + dotLen + ws2.length + ds.length)
    else none

/-- `re.sub(r'\s+\d+', ...)` match length at the head of `s`. -/
def sub3At (s : Str) : Option Nat :=
  let ws := s.takeWhile isPySpace
  if ws.isEmpty then none
  else
    let ds := (s.drop ws.length).takeWhile isDigitC
    if ds.isEmpty then none else some (ws.length + ds.length)

/-- Global removal (`re.sub(pat, '', s)`): scan left to right, deleting each
non-overlapping match.  `fuel` bounds the scan (callers pass `s.length + 1`). -/
def gsub (tryAt : Str → Option Nat) : Nat → Str → Str
  | 0, s => s
  | _ + 1, [] => []
  | fuel + 1, c :: rest =>
    match tryAt (c :: rest) with
    | some n => gsub tryAt fuel ((c :: rest).drop n)
    | none => c :: gsub tryAt fuel rest

/-- The venue-cleanup chain of lines 835-838. -/
def venueClean (s : Str) : Str :=
  let a := gsub sub1At (s.length + 1) s
  let b := gsub sub2At (a.length + 1) a
  let c := gsub sub3At (b.length + 1) b
  pyStrip c

/-- Venue keywords of line 843 (case-sensitive containment). -/
def venueKeywords : List Str :=
  ["Journal".data, "Radiology".data, "Cancer".data, "Meeting".data,
   "Symposium".data, "Conference".data, "Society".data, "Press".data,
   "Engineering".data, "Science".data]

/-- First index of a part containing `title` as a substring (lines 822-826). -/
def firstContaining (parts : List Str) (title : Str) : Option Nat :=
  (parts.enumFrom 0).findSome? (fun x =>
    if containsSub x.2 title then some x.1 else none)

/-- Venue derivation (lines 812-850): the detected pattern-1 venue if set,
else the cleaned-up part following the title, accepted only when it looks
like a venue name. -/
def venueOf (detected : Option Str) (parts : List Str) (titleIdx : Nat)
    (title : Str) : Option Str :=
  if truthyS detected then detected
  else
    let cand : Option Str :=
      if titleIdx + 1 < parts.length then parts.get? (titleIdx + 1)
      else
        match firstContaining parts title with
        | some fi => if fi + 1 < parts.length then parts.get? (fi + 1) else none
        | none => none
    match cand with
    | none => none
    | some vc =>
      let v := venueClean vc
      if v.isEmpty then none
      else if venueKeywords.any (fun kw => containsSub v kw) then some v
      else if 2 ≤ (pySplitWs v).length && (pySplitWs v).length ≤ 4 &&
          isUpperC (v.headD ' ') then some v
      else if (pySplitWs v).length = 1 && isUpperC (v.headD ' ') &&
          decide (v.length > 3) then some v
      else none

/-- The twelve month names of the date pattern (line 855). -/
def monthNames : List Str :=
  ["January".data, "February".data, "March".data, "April".data, "May".data,
   "June".data, "July".data, "August".data, "September".data, "October".data,
   "November".data, "December".data]

/-- `(January|...|December)\s+\d{4}` at the head of `s`: the full match. -/
def dateAt (s : Str) : Option Str :=
  match monthNames.find? (fun m => m.isPrefixOf s) with
  | none => none
  | some m =>
    let s1 := s.drop m.length
    let ws := s1.takeWhile isPySpace
    if ws.isEmpty then none
    else
      let s2 := s1.drop ws.length
      if (s2.take 4).length = 4 && (s2.take 4).all isDigitC then
        some (m ++ ws ++ s2.take 4)
      else none

/-- Leftmost match of the date pattern. -/
def dateSearch : Str → Option Str
  | [] => none
  | c :: rest =>
    match dateAt (c :: rest) with
    | some r => some r
    | none => dateSearch rest

/-- Tail `,\s*([A-Z]{2}|[A-Z][a-z]+)$` of the location pattern: group 2. -/
def locFinish (s : Str) : Option Str :=
  match s with
  | ',' :: s1 =>
    let s2 := s1.dropWhile isPySpace
    match (match s2 with
           | a :: b :: rest =>
             if isUpperC a && isUpperC b && rest.isEmpty then some [a, b] else none
           | _ => none : Option Str) with
    | some g => some g
    | none =>
      match s2 with
      | a :: rest =>
        if isUpperC a then
          let low := rest.takeWhile isLowerC
          if !low.isEmpty && (rest.drop low.length).isEmpty then some (a :: low)
          else none
        else none
      | [] => none
  | _ => none

/-- Location pattern `,\s*([A-Z][a-z]+(?:\s+[A-Z][a-z]+)?),\s*([A-Z]{2}|[A-Z][a-z]+)$`
at the head of `s`: (city group, state group).  The optional second city word
is greedy and backtracks when the tail then fails. -/
def locAt (s : Str) : Option (Str × Str) :=
  match s with
  | ',' :: s1 =>
    match s1.dropWhile isPySpace with
    | c :: rest =>
      if isUpperC c then
        let low := rest.takeWhile isLowerC
        if low.isEmpty then none
        else
          let w1 : Str := c :: low
          let after1 := rest.drop low.length
          let withSecond : Option (Str × Str) :=
            let ws := after1.takeWhile isPySpace
            if ws.isEmpty then none
            else
              match after1.drop ws.length with
              | d :: rest2 =>
                if isUpperC d then
                  let low2 := rest2.takeWhile isLowerC
                  if low2.isEmpty then none
                  else (locFinish (rest2.drop low2.length)).map
                    (fun g2 => (w1 ++ ws ++ d :: low2, g2))
                else none
              | [] => none
          match withSecond with
          | some r => some r
          | none => (locFinish after1).map (fun g2 => (w1, g2))
      else none
    | [] => none
  | _ => none

/-- Leftmost match of the location pattern. -/
def locSearch : Str → Option (Str × Str)
  | [] => none
  | c :: rest =>
    match locAt (c :: rest) with
    | some r => some r
    | none => locSearch rest

/-- First-author marking of the fallback parser (lines 866-871): authors whose
full normalised string occurs in the author section when it carries a `*`. -/
def fallbackFirstAuthors (s : Str) (title : Str) (parts : List Str)
    (authors : List Str) : List Nat :=
  let asec := if containsSub s title then s.take ((findSub s title).getD 0)
              else parts.headD []
  let idxs := (authors.enumFrom 1).filterMap (fun x =>
    if containsSub asec ['*'] && containsSub asec x.2 then some x.1 else none)
  if !idxs.isEmpty then idxs
  else if !authors.isEmpty then [1] else []

/-! ### The parsed-citation record and the fallback parser itself. -/

/-- The dictionary produced by the parsing pipeline (and by the CSL-JSON
adapter).  Absent dictionary keys are modelled as `none` / `[]` / `""`
defaults, matching Python's `dict.get`. -/
structure CitRec where
  type : Str := []
  title : Str := []
  year : Option Int := none
  venue : Option Str := none
  volume : Option Str := none
  issue : Option Str := none
  pages : Option Str := none
  doi : Option Str := none
  abstract : Option Str := none
  url : Option Str := none
  keywords : Option Str := none
  subjectArea : Option Str := none
  citationCount : Option Int := none
  authors : List Str := []
  firstAuthorPositions : List Nat := []
  date : Option Str := none
  location : Option Str := none
  status : Option Str := none
  abstractNumber : Option Str := none
  deriving DecidableEq, Repr

/-- Volume/issue/pages extraction (citation_parser.py lines 551-600):
pattern 1 with its venue detection, then pattern 2 if no volume, then
pattern 3 if still no volume, then the `pp.` pages pattern if no pages.
Returns (volume, issue, pages, detected venue). -/
def extractVolIssuePages (s : Str) (year : Option Nat) :
    Option Str × Option Str × Option Str × Option Str :=
  let yearNeedle := fun (y : Nat) => '(' :: (natToStr y ++ [')'])
  let st1 : Option Str × Option Str × Option Str × Option Str :=
    match p1Search s with
    | some (idx, venue, volNum, articleId) =>
      let yearPos : Int :=
        match year with
        | some y =>
          match findSub s (yearNeedle y) with
          | some p => (p : Int)
          | none => -1
        | none => (s.length : Int)
      if (idx : Int) < yearPos && (pySplitWs venue).length ≤ 3 then
        if articleId.headD ' ' = 'e' || articleId.headD ' ' = 'E' ||
            articleId.headD ' ' = 'a' || articleId.headD ' ' = 'A' then
          (some volNum, none, some articleId, some venue)
        else (some volNum, some articleId, none, some venue)
      else (none, none, none, none)
    | none => (none, none, none, none)
  let vol2iss2 : Option Str × Option Str :=
    if !truthyS st1.1 then
      match p2Search s with
      | some (v, i2) => (some v, some i2)
      | none => (st1.1, st1.2.1)
    else (st1.1, st1.2.1)
  let vol3 : Option Str :=
    if !truthyS vol2iss2.1 then
      match p3Search s with
      | some (idx, run) =>
        let yearPos : Int :=
          match year with
          | some y =>
            match findSub s (yearNeedle y) with
            | some p => (p : Int)
            | none => -1
          | none => -1
        if yearPos > (idx : Int) then some run else vol2iss2.1
      | none => vol2iss2.1
    else vol2iss2.1
  let pg2 : Option Str :=
    if !truthyS st1.2.2.1 then
      match ppSearch s with
      | some r => some r
      | none => st1.2.2.1
    else st1.2.2.1
  (vol3, vol2iss2.2, pg2, st1.2.2.2)

/-- `citation_parser.parse_citation_fallback` (lines 538-885). -/
def parseCitationFallback (s0 : Str) : Option CitRec :=
  let s := pyStrip s0
  if s.isEmpty || s.length < 20 then none
  else
    let year := searchYear s
    let doi := extract_doi s
    let vip := extractVolIssuePages s year
    let tsp := titleStartSearch s
    -- `if title_start_pos:` — falsy both for no match and for a match at 0
    let authorTextRes : Option Str :=
      match tsp with
      | some p =>
        if p ≠ 0 then some (pyStrip (s.take p))
        else
          let parts0 := nontrivialParts s
          if parts0.length < 2 then none else some (parts0.headD [])
      | none =>
        let parts0 := nontrivialParts s
        if parts0.length < 2 then none else some (parts0.headD [])
    match authorTextRes with
    | none => none
    | some authorText =>
      let authors := authorsLoop (authorParts authorText)
      match bookChapterSearch s with
      | some (g1, g2, yr) =>
        some { title := pyStrip g1, year := some (yr : Int),
               venue := some (pyStrip g2), doi := doi, authors := authors,
               firstAuthorPositions := if authors.isEmpty then [] else [1] }
      | none =>
        let parts := nontrivialParts s
        if parts.length < 2 then none
        else
          match selectTitle parts with
          | none => none
          | some (title, titleIdx) =>
            if title.isEmpty then none
            else
              some { title := title, year := year.map (Int.ofNat ·),
                     venue := venueOf vip.2.2.2 parts titleIdx title,
                     volume := vip.1, issue := vip.2.1, pages := vip.2.2.1,
                     doi := doi, date := dateSearch s,
                     location := (locSearch s).map
                       (fun p => p.1 ++ ", ".data ++ p.2),
                     authors := authors,
                     firstAuthorPositions :=
                       fallbackFirstAuthors s title parts authors }

/-! ### External metadata providers (modelled as oracles)

`parse_with_grobid`, `lookup_doi_metadata` and `lookup_openalex` perform
network I/O; each is modelled as a function-valued oracle returning the
dictionary shape that the corresponding Python function builds.  The field
lists mirror the keys each function actually places in its result dictionary,
so `dict.get` on an absent key is `none` by construction. -/

/-- Result dictionary of `parse_with_grobid` (lines 210-220): only returned
when the extracted title is truthy. -/
structure GrobidMeta where
  title : Str
  authors : List Str := []
  venue : Option Str := none
  year : Option Int := none
  volume : Option Str := none
  issue : Option Str := none
  pages : Option Str := none
  doi : Option Str := none
  deriving DecidableEq, Repr

/-- Result dictionary of `lookup_doi_metadata` (lines 483-497). -/
structure CrossrefMeta where
  title : Option Str := none
  authors : List Str := []
  venue : Option Str := none
  year : Option Int := none
  volume : Option Str := none
  issue : Option Str := none
  pages : Option Str := none
  doi : Str := []
  abstract : Option Str := none
  url : Option Str := none
  keywords : Option Str := none
  subjectArea : Option Str := none
  citationCount : Option Int := none
  deriving DecidableEq, Repr

/-- Result dictionary of `lookup_openalex` (lines 272-282).  It has no
`pages` or `subject_area` key.  A `None` OpenAlex title would make the Python
caller raise on `title in citation_text`; the oracle returns a string. -/
structure OpenAlexMeta where
  title : Str
  authors : Option (List Str) := none
  venue : Option Str := none
  year : Option Int := none
  doi : Option Str := none
  url : Option Str := none
  citationCount : Option Int := none
  abstract : Option Str := none
  keywords : Option Str := none
  deriving DecidableEq, Repr

/-- Provider availability flags and oracles, mirroring `GROBID_AVAILABLE`,
`HABANERO_AVAILABLE`, `OPENALEX_AVAILABLE` and the three lookup functions.
The `openalex` oracle takes the arguments of `lookup_openalex`
(citation text, title, authors, year). -/
structure ProviderEnv where
  grobidAvailable : Bool := false
  habaneroAvailable : Bool := false
  openalexAvailable : Bool := false
  grobid : Str → Option GrobidMeta := fun _ => none
  crossref : Str → Option CrossrefMeta := fun _ => none
  openalex : Str → Option Str → Option (List Str) → Option Int →
    Option OpenAlexMeta := fun _ _ _ _ => none

/-- The provider environment with every provider unavailable. -/
def envNone : ProviderEnv := {}

/-- The working metadata dictionary of strategy 1: the GROBID dictionary
plus the enrichment keys added by the merge blocks. -/
structure WorkMeta where
  title : Str
  authors : List Str := []
  venue : Option Str := none
  year : Option Int := none
  volume : Option Str := none
  issue : Option Str := none
  pages : Option Str := none
  doi : Option Str := none
  abstract : Option Str := none
  url : Option Str := none
  keywords : Option Str := none
  subjectArea : Option Str := none
  citationCount : Option Int := none
  deriving DecidableEq, Repr

/-- The GROBID dictionary viewed as a working record: the enrichment keys
(`abstract`, `url`, `keywords`, `subject_area`, `citation_count`) are absent
from the dictionary `parse_with_grobid` builds, hence `none` here. -/
def workOfGrobid (g : GrobidMeta) : WorkMeta :=
  { title := g.title, authors := g.authors, venue := g.venue, year := g.year,
    volume := g.volume, issue := g.issue, pages := g.pages, doi := g.doi }

/-- The `metadata.update({...})` Crossref-enrichment block (lines 972-978,
repeated verbatim at lines 1005-1011): each enrichment field becomes
`crossref value or existing value` under Python `or`. -/
def mergeCrossrefEnrich (m : WorkMeta) (cr : CrossrefMeta) : WorkMeta :=
  { m with
    abstract := pyOrS cr.abstract m.abstract,
    url := pyOrS cr.url m.url,
    keywords := pyOrS cr.keywords m.keywords,
    subjectArea := pyOrS cr.subjectArea m.subjectArea,
    citationCount := pyOrI cr.citationCount m.citationCount }

/-- The OpenAlex fill-in block of strategy 1 (lines 1013-1021): each of
abstract/url/keywords/citation_count is copied only when missing on the
working record and truthy on the OpenAlex result. -/
def fillFromOpenAlex (m : WorkMeta) (oa : OpenAlexMeta) : WorkMeta :=
  { m with
    abstract := if !truthyS m.abstract && truthyS oa.abstract then oa.abstract
                else m.abstract,
    url := if !truthyS m.url && truthyS oa.url then oa.url else m.url,
    keywords := if !truthyS m.keywords && truthyS oa.keywords then oa.keywords
                else m.keywords,
    citationCount := if !truthyI m.citationCount && truthyI oa.citationCount then
                       oa.citationCount
                     else m.citationCount }

/-- `determine_entry_type` (citation_parser.py lines 907-939), the category
rule shared by fusion strategies 1-3.  `lower` is the lowercased citation. -/
def determine_entry_type (defaultType : Str) (lower : Str) : Str :=
  if defaultType = "oral_presentation".data || defaultType = "poster_abstract".data then
    if defaultType = "oral_presentation".data &&
        (containsSub lower "poster".data || containsSub lower "abstract".data) then
      "poster_abstract".data
    else if defaultType = "poster_abstract".data &&
        (containsSub lower "oral".data || containsSub lower "presentation".data) then
      "oral_presentation".data
    else defaultType
  else if containsSub lower "meeting".data || containsSub lower "symposium".data ||
      containsSub lower "conference".data || containsSub lower "workshop".data ||
      containsSub lower "retreat".data || containsSub lower "annual".data then
    if containsSub lower "oral".data || containsSub lower "presentation".data then
      "oral_presentation".data
    else if containsSub lower "poster".data || containsSub lower "abstract".data then
      "poster_abstract".data
    else "oral_presentation".data
  else if containsSub lower "patent".data then "patent".data
  else if containsSub lower "chapter".data then "book_chapter".data
  else defaultType

/-- Leftmost match of `(pending|granted|issued)` (strategy 4's patent-status
probe, line 1154).  The three alternatives cannot match at one position. -/
def statusSearch : Str → Option Str
  | [] => none
  | c :: rest =>
    if "pending".data.isPrefixOf (c :: rest) then some "pending".data
    else if "granted".data.isPrefixOf (c :: rest) then some "granted".data
    else if "issued".data.isPrefixOf (c :: rest) then some "issued".data
    else statusSearch rest

/-- The inline category chain of fusion strategy 4 (lines 1130-1158); unlike
`determine_entry_type` it also classifies on the keyword "book" and extracts
a patent status.  Returns (entry type, status set by the patent branch). -/
def fallbackEntryType (defaultType : Str) (lower : Str) : Str × Option Str :=
  if defaultType = "oral_presentation".data || defaultType = "poster_abstract".data then
    if defaultType = "oral_presentation".data &&
        (containsSub lower "poster".data || containsSub lower "abstract".data) then
      ("poster_abstract".data, none)
    else if defaultType = "poster_abstract".data &&
        (containsSub lower "oral".data || containsSub lower "presentation".data) then
      ("oral_presentation".data, none)
    else (defaultType, none)
  else if containsSub lower "meeting".data || containsSub lower "symposium".data ||
      containsSub lower "conference".data || containsSub lower "workshop".data ||
      containsSub lower "retreat".data || containsSub lower "annual".data then
    if containsSub lower "oral".data || containsSub lower "presentation".data then
      ("oral_presentation".data, none)
    else if containsSub lower "poster".data || containsSub lower "abstract".data then
      ("poster_abstract".data, none)
    else ("oral_presentation".data, none)
  else if containsSub lower "patent".data then ("patent".data, statusSearch lower)
  else if containsSub lower "chapter".data || containsSub lower "book".data then
    ("book_chapter".data, none)
  else (defaultType, none)

/-- `extract_first_author_positions` (lines 941-949), the nested helper of
`parse_citation`: an author is flagged when the author section (the text
before the title) contains a `*` and the author's surname token. -/
def extractFirstAuthorPositions (authors : List Str) (s : Str) (title : Str) :
    List Nat :=
  if authors.isEmpty then []
  else
    let asec := if containsSub s title then s.take ((findSub s title).getD 0)
                else []
    let idxs := (authors.enumFrom 1).filterMap (fun x =>
      if containsSub asec ['*'] &&
          containsSub asec ((x.2.splitOn ',').headD []) then some x.1 else none)
    if !idxs.isEmpty then idxs
    else if !authors.isEmpty then [1] else []

/-! ### The fusion orchestrator `parse_citation` (lines 887-1190). -/

/-- Strategy 1 (GROBID base, lines 951-1039), entered when GROBID is
available and returned a record with a truthy title. -/
def strategy1 (env : ProviderEnv) (s lower defaultType : Str) (g : GrobidMeta) :
    CitRec :=
  let entryType := determine_entry_type defaultType lower
  let fap := extractFirstAuthorPositions g.authors s g.title
  let m0 := workOfGrobid g
  let doi0 := pyOrS m0.doi (extract_doi s)
  let doi1 := if !truthyS doi0 && truthyS m0.url then
                extract_doi_from_url (m0.url.getD []) else doi0
  let m1 :=
    if truthyS doi1 && env.habaneroAvailable then
      let mA := if !truthyS m0.doi then { m0 with doi := doi1 } else m0
      match env.crossref (doi1.getD []) with
      | some cr =>
        let mB := mergeCrossrefEnrich mA cr
        -- `if crossref_metadata.get('url') and not metadata.get('doi')`
        if truthyS cr.url && !truthyS mB.doi then
          match extract_doi_from_url (cr.url.getD []) with
          | some ud => { mB with doi := some ud }
          | none => mB
        else mB
      | none => mA
    else m0
  let m2 :=
    if env.openalexAvailable && !m1.title.isEmpty then
      match env.openalex s (some m1.title) (some m1.authors) m1.year with
      | some oa =>
        let oaDoi := if !truthyS oa.doi && truthyS oa.url then
                       extract_doi_from_url (oa.url.getD []) else oa.doi
        let m1b :=
          if !truthyS doi1 && truthyS oaDoi && env.habaneroAvailable then
            let mA := { m1 with doi := oaDoi }
            match env.crossref (oaDoi.getD []) with
            | some cr2 => mergeCrossrefEnrich mA cr2
            | none => mA
          else m1
        fillFromOpenAlex m1b oa
      | none => m1
    else m1
  { type := entryType, title := m2.title, year := m2.year, venue := m2.venue,
    volume := m2.volume, issue := m2.issue, pages := m2.pages, doi := m2.doi,
    abstract := m2.abstract, url := m2.url, keywords := m2.keywords,
    subjectArea := m2.subjectArea, citationCount := m2.citationCount,
    authors := m2.authors, firstAuthorPositions := fap }

/-- Strategy 2 (direct Crossref lookup of a DOI found in the text,
lines 1041-1067), entered when the lookup returned a truthy title. -/
def strategy2 (s lower defaultType : Str) (doiT : Option Str)
    (cr : CrossrefMeta) : CitRec :=
  { type := determine_entry_type defaultType lower,
    title := cr.title.getD [], year := cr.year, venue := cr.venue,
    volume := cr.volume, issue := cr.issue, pages := cr.pages,
    doi := doiT, abstract := cr.abstract, url := cr.url,
    keywords := cr.keywords, subjectArea := cr.subjectArea,
    citationCount := cr.citationCount, authors := cr.authors,
    firstAuthorPositions :=
      extractFirstAuthorPositions cr.authors s (cr.title.getD []) }

/-- Strategy 3 (regex skeleton + OpenAlex search + optional Crossref
enrichment, lines 1069-1125). -/
def strategy3 (env : ProviderEnv) (s lower defaultType : Str) (fb : CitRec)
    (oa : OpenAlexMeta) : CitRec :=
  let entryType := determine_entry_type defaultType lower
  let authors := pyOrL oa.authors fb.authors
  let fap := extractFirstAuthorPositions authors s oa.title
  let d0 := pyOrS (pyOrS oa.doi fb.doi) (extract_doi s)
  let d1 := if !truthyS d0 && truthyS oa.url then
              extract_doi_from_url (oa.url.getD []) else d0
  -- `if not doi and fallback_parsed.get('url')`: the fallback record has no url
  let d2 := if !truthyS d1 && truthyS fb.url then
              extract_doi_from_url (fb.url.getD []) else d1
  let crD : Option CrossrefMeta × Option Str :=
    if truthyS d2 && env.habaneroAvailable then
      match env.crossref (d2.getD []) with
      | some cr =>
        if truthyS cr.url then
          match extract_doi_from_url (cr.url.getD []) with
          | some ud => if ud ≠ d2.getD [] then (some cr, some ud) else (some cr, d2)
          | none => (some cr, d2)
        else (some cr, d2)
      | none => (none, d2)
    else (none, d2)
  { type := entryType,
    title := oa.title,  -- `openalex_metadata.get('title', ...)`: key present
    year := pyOrI oa.year fb.year,
    venue := pyOrS oa.venue fb.venue,
    volume := fb.volume, issue := fb.issue,
    pages := fb.pages,  -- `openalex_metadata.get('pages') or ...`: no such key
    doi := crD.2,
    abstract := pyOrS (match crD.1 with | some c => c.abstract | none => none)
      oa.abstract,
    url := pyOrS (match crD.1 with | some c => c.url | none => none) oa.url,
    keywords := pyOrS (match crD.1 with | some c => c.keywords | none => none)
      oa.keywords,
    subjectArea := match crD.1 with | some c => c.subjectArea | none => none,
    citationCount :=
      pyOrI (match crD.1 with | some c => c.citationCount | none => none)
        oa.citationCount,
    authors := authors, firstAuthorPositions := fap }

/-- Strategy 4 (pure regex fallback + optional Crossref enrichment,
lines 1127-1188), applied to a successful fallback record `p`. -/
def strategy4 (env : ProviderEnv) (s lower defaultType : Str) (p : CitRec) :
    CitRec :=
  let ts := fallbackEntryType defaultType lower
  let p1 := { p with type := ts.1, status := ts.2 }
  let d0 := pyOrS p.doi (extract_doi s)
  let d1 := if !truthyS d0 && truthyS p.url then
              extract_doi_from_url (p.url.getD []) else d0
  if truthyS d1 && env.habaneroAvailable then
    match env.crossref (d1.getD []) with
    | some cr =>
      let p2 := { p1 with
                  doi := d1,
                  abstract := pyOrS cr.abstract p1.abstract,
                  url := pyOrS cr.url p1.url,
                  keywords := pyOrS cr.keywords p1.keywords,
                  subjectArea := pyOrS cr.subjectArea p1.subjectArea,
                  citationCount := pyOrI cr.citationCount p1.citationCount }
      if truthyS cr.url then
        match extract_doi_from_url (cr.url.getD []) with
        | some ud => { p2 with doi := some ud }
        | none => p2
      else p2
    | none => p1
  else p1

/-- `citation_parser.parse_citation` (lines 887-1190): the four fusion
strategies tried in order, each short-circuiting on success. -/
def parseCitation (env : ProviderEnv) (s0 : Str) (defaultType : Str) :
    Option CitRec :=
  let s := pyStrip s0
  if s.isEmpty || s.length < 20 then none
  else
    let lower := lowerS s
    let st1 : Option CitRec :=
      if env.grobidAvailable then
        match env.grobid s with
        | some g =>
          if !g.title.isEmpty then some (strategy1 env s lower defaultType g)
          else none
        | none => none
      else none
    match st1 with
    | some r => some r
    | none =>
      let doiT := extract_doi s
      let st2 : Option CitRec :=
        if truthyS doiT && env.habaneroAvailable then
          match env.crossref (doiT.getD []) with
          | some cr =>
            if truthyS cr.title then some (strategy2 s lower defaultType doiT cr)
            else none
          | none => none
        else none
      match st2 with
      | some r => some r
      | none =>
        let st3 : Option CitRec :=
          if env.openalexAvailable then
            match parseCitationFallback s with
            | some fb =>
              if !fb.title.isEmpty then
                match env.openalex s (some fb.title) (some fb.authors) fb.year with
                | some oa => some (strategy3 env s lower defaultType fb oa)
                | none => none
              else none
            | none => none
          else none
        match st3 with
        | some r => some r
        | none =>
          match parseCitationFallback s with
          | none => none
          | some p => some (strategy4 env s lower defaultType p)

/-! ### CSL-JSON adapter (`parse_csl_json_item`, lines 1265-1446). -/

/-- A JSON value that may be a string or a list of strings. -/
inductive StrOrList where
  | str (v : Str)
  | list (v : List Str)
  deriving DecidableEq, Repr

/-- One `{family, given}` author object of a CSL item (absent keys default
to `''` via `author.get(..., '')`; non-dict list elements are skipped by the
source and are not modelled). -/
structure CslAuthor where
  family : Str := []
  given : Str := []
  deriving DecidableEq, Repr

/-- A CSL-JSON item.  An `Option` field is `none` when the key is absent
(`'key' in item` is false).  `issued`/`eventDate` hold the `date-parts` of a
present-and-truthy date object (`none` also covers a present falsy one, which
the source treats identically for `issued`'s branch and never distinguishes
for `event-date`).  `yearRaw`/`citationCountRaw` are `some none` when the key
is present but not `int(...)`-coercible.  `volume`/`issue`/`number` hold the
`str(...)` rendering of the raw value, with a falsy raw value rendered `[]`. -/
structure CslItem where
  title : Option Str := none
  author : Option (List CslAuthor) := none
  type : Option Str := none
  issued : Option (List (List Int)) := none
  yearRaw : Option (Option Int) := none
  containerTitle : Option StrOrList := none
  journal : Option Str := none
  event : Option Str := none
  volume : Option Str := none
  issue : Option Str := none
  page : Option Str := none
  pages : Option Str := none
  doiUpper : Option Str := none
  doiLower : Option Str := none
  abstract : Option Str := none
  urlUpper : Option Str := none
  urlLower : Option Str := none
  keyword : Option StrOrList := none
  subject : Option StrOrList := none
  citationCountRaw : Option (Option Int) := none
  eventDate : Option (List (List Int)) := none
  eventPlace : Option Str := none
  publisherPlace : Option Str := none
  status : Option Str := none
  number : Option Str := none
  note : Option Str := none
  deriving DecidableEq, Repr

/-- Render an integer as Python `str(n)`. -/
def intToStr (n : Int) : Str :=
  if n < 0 then '-' :: natToStr n.natAbs else natToStr n.toNat

/-- The CSL `type` → entry-category map (lines 1299-1309). -/
def cslTypeMap (cslType : Str) : Str :=
  if cslType = "article".data then "publication".data
  else if cslType = "article-journal".data then "publication".data
  else if cslType = "paper-conference".data then "oral_presentation".data
  else if cslType = "poster".data then "poster_abstract".data
  else if cslType = "presentation".data then "oral_presentation".data
  else if cslType = "chapter".data then "book_chapter".data
  else if cslType = "patent".data then "patent".data
  else if cslType = "book".data then "publication".data
  else "publication".data

/-- Leftmost match of `(?:abstract|poster)[\s#:]*(\d+)` (ci, line 1423). -/
def noteNumberSearch : Str → Option Str
  | [] => none
  | c :: rest =>
    let s := c :: rest
    let afterKw : Option Str :=
      if lowerS (s.take 8) = "abstract".data then some (s.drop 8)
      else if lowerS (s.take 6) = "poster".data then some (s.drop 6)
      else none
    match afterKw with
    | some s1 =>
      let s2 := s1.dropWhile (fun ch => isPySpace ch || ch = '#' || ch = ':')
      let ds := s2.takeWhile isDigitC
      if ds.isEmpty then noteNumberSearch rest else some ds
    | none => noteNumberSearch rest

/-- The DOI-cleaning chain of lines 1349-1352: `str.replace` of each prefix
form anywhere in the string, then `strip`; an emptied result becomes `None`. -/
def cslCleanDoi (d : Str) : Option Str :=
  let a := replaceSub "https://doi.org/".data [] (d.length + 1) d
  let b := replaceSub "http://dx.doi.org/".data [] (a.length + 1) a
  let c := replaceSub "doi:".data [] (b.length + 1) b
  let r := pyStrip c
  if r.isEmpty then none else some r

/-- `citation_parser.parse_csl_json_item` (lines 1265-1446). -/
def parseCslJsonItem (item : CslItem) : Option CitRec :=
  let title := (item.title.getD [])
  if title.isEmpty then none
  else
    let authors : List Str :=
      match item.author with
      | none => []
      | some l =>
        l.filterMap (fun a =>
          if a.family.isEmpty then none
          else if a.given.isEmpty then some a.family
          else some (a.family ++ ", ".data ++ a.given))
    let entryType := cslTypeMap (lowerS (item.type.getD "article".data))
    let year : Option Int :=
      match item.issued with
      | some dps =>
        match dps.headD [] with
        | y :: _ => some y
        | [] => none
      | none =>
        match item.yearRaw with
        | some v => v
        | none => none
    let venue : Option Str :=
      match item.containerTitle with
      | some (.list (v :: _)) => some v
      | some (.list []) => none
      | some (.str v) => some v
      | none =>
        match item.journal with
        | some j => some j
        | none => item.event
    let volume := if truthyS item.volume then item.volume else none
    let issue := if truthyS item.issue then item.issue else none
    -- `item.get('page', '') or item.get('pages', '') or None`
    let pages :=
      if truthyS item.page then item.page
      else if truthyS item.pages then item.pages
      else none
    let doi : Option Str :=
      let raw := match item.doiUpper with
                 | some d => some d
                 | none => item.doiLower
      match raw with
      | some d => if truthyS (some d) then cslCleanDoi d else some d
      | none => none
    let abstract := if truthyS item.abstract then item.abstract else none
    let url :=
      if truthyS item.urlUpper then item.urlUpper
      else if truthyS item.urlLower then item.urlLower
      else none
    let keywords : Option Str :=
      match item.keyword with
      | some (.list l) =>
        some (List.intercalate ", ".data (l.filter (fun kw => !kw.isEmpty)))
      | some (.str s) => some s
      | none => none
    let subjectArea : Option Str :=
      match item.subject with
      | some (.list (v :: _)) => some v
      | some (.list []) => none
      | some (.str s) => some s
      | none => none
    let citationCount : Option Int :=
      match item.citationCountRaw with
      | some v => v
      | none => none
    let date : Option Str :=
      match item.eventDate with
      | some (dp0 :: _) =>
        if dp0.length ≥ 2 then
          let month := dp0.get? 1
          let yearPart := dp0.headD 0
          match month with
          | some m =>
            if m ≠ 0 && 1 ≤ m && m ≤ 12 then
              some ((monthNames.getD (m.toNat - 1) []) ++ [' '] ++ intToStr yearPart)
            else some (intToStr yearPart)
          | none => some (intToStr yearPart)
        else none
      | some [] => none
      | none => none
    let location : Option Str :=
      match item.eventPlace with
      | some p => some p
      | none => item.publisherPlace
    let status : Option Str :=
      if entryType = "patent".data then item.status else none
    let abstractNumber : Option Str :=
      if entryType = "poster_abstract".data || entryType = "oral_presentation".data then
        match item.number with
        | some n => some n
        | none =>
          match item.note with
          | some nt => noteNumberSearch nt
          | none => none
      else none
    some { type := entryType, title := title, year := year, venue := venue,
           volume := volume, issue := issue, pages := pages, doi := doi,
           abstract := abstract, url := url, keywords := keywords,
           subjectArea := subjectArea, citationCount := citationCount,
           authors := authors, date := date, location := location,
           status := status, abstractNumber := abstractNumber }

/-! ### Data model and storage layer (models.py, db.py)

Rows mirror the dataclasses of models.py; the SQLite store is a list of rows
per table with an autoincrement counter (row ids start at 1, as SQLite
rowids do; queries return rows in insertion order, as an unordered SQLite
table scan does).  `created_at`/`updated_at` timestamps carry no information
used by any claim and are omitted. -/

/-- models.py `Entry`. -/
structure EntryRow where
  id : Option Nat := none
  type : Str := []
  title : Str := []
  year : Option Int := none
  venue : Option Str := none
  volume : Option Str := none
  issue : Option Str := none
  pages : Option Str := none
  doi : Option Str := none
  abstractNumber : Option Str := none
  date : Option Str := none
  location : Option Str := none
  status : Option Str := none
  abstract : Option Str := none
  url : Option Str := none
  keywords : Option Str := none
  subjectArea : Option Str := none
  citationCount : Option Int := none
  anumPosition : Option Nat := none
  deriving DecidableEq, Repr

/-- models.py `Author`. -/
structure AuthorRow where
  id : Option Nat := none
  name : Str := []
  isAnum : Bool := false
  deriving DecidableEq, Repr

/-- models.py `EntryAuthor`. -/
structure EntryAuthorRow where
  entryId : Nat
  authorId : Nat
  position : Nat
  isFirstAuthor : Bool := false
  isCorresponding : Bool := false
  deriving DecidableEq, Repr

/-- The store: `entries`, `authors`, `entry_authors` with id counters. -/
structure Db where
  entries : List EntryRow := []
  authors : List AuthorRow := []
  entryAuthors : List EntryAuthorRow := []
  nextEntryId : Nat := 1
  nextAuthorId : Nat := 1
  deriving DecidableEq, Repr

/-- The id of a stored row (stored rows always carry `some id`, id ≥ 1). -/
def rowId (r : EntryRow) : Nat := r.id.getD 0

/-- `Database.check_duplicate` (db.py lines 70-125): DOI exact match, then
`LOWER(TRIM(title)) = lower(strip(probe))` with equal year, then the same
title test alone; each `fetchall()[0]` is the first row in table order.
SQLite `TRIM` strips spaces only, while the Python-side probe is stripped of
all whitespace; both lowerings are ASCII. -/
def checkDuplicate (db : Db) (e : EntryRow) : Option Nat :=
  let doiHit := if truthyS e.doi then db.entries.find? (fun r => r.doi == e.doi)
                else none
  match doiHit with
  | some r => some (rowId r)
  | none =>
    let tn := pyStrip (lowerS e.title)
    let rows2 :=
      if !e.title.isEmpty && truthyI e.year then
        db.entries.filter (fun r => lowerS (sqlTrim r.title) == tn && r.year == e.year)
      else []
    match rows2.head? with
    | some r => some (rowId r)
    | none =>
      let rows3 :=
        if !e.title.isEmpty then
          db.entries.filter (fun r => lowerS (sqlTrim r.title) == tn)
        else []
      match rows3.head? with
      | some r => some (rowId r)
      | none => none

/-- `Database.create_entry` (lines 127-165): duplicate check, else insert
with a fresh autoincrement id.  Returns (store, entry id, is_new). -/
def createEntry (db : Db) (e : EntryRow) (checkDup : Bool := true) :
    Db × Nat × Bool :=
  match (if checkDup then checkDuplicate db e else none) with
  | some i => (db, i, false)
  | none =>
    let nid := db.nextEntryId
    ({ db with entries := db.entries ++ [{ e with id := some nid }],
               nextEntryId := nid + 1 }, nid, true)

/-- `Database.update_entry` (lines 234-268): no-op returning false when the
entry has no id, else overwrite the row with that id (rowcount > 0). -/
def updateEntry (db : Db) (e : EntryRow) : Db × Bool :=
  match e.id with
  | none => (db, false)
  | some i =>
    ({ db with entries := db.entries.map (fun r => if r.id == some i then e else r) },
     db.entries.any (fun r => r.id == some i))

/-- `Database.create_author` (lines 288-315): reuse the first stored author
with the exact same name, else insert a new row. -/
def createAuthor (db : Db) (a : AuthorRow) : Db × Nat :=
  match db.authors.find? (fun r => r.name == a.name) with
  | some r => (db, r.id.getD 0)
  | none =>
    let nid := db.nextAuthorId
    ({ db with authors := db.authors ++ [{ a with id := some nid }],
               nextAuthorId := nid + 1 }, nid)

/-- `Database.add_entry_author` (lines 371-390): `INSERT OR REPLACE` keyed on
(entry_id, author_id), per the schema's one-link-per-(work, author) key. -/
def addEntryAuthor (db : Db) (ea : EntryAuthorRow) : Db :=
  { db with entryAuthors :=
      (db.entryAuthors.filter
        (fun l => !(l.entryId == ea.entryId && l.authorId == ea.authorId))) ++ [ea] }

/-- Number of author links of one entry (its `entry_authors` row count). -/
def linkCount (db : Db) (eid : Nat) : Nat :=
  (db.entryAuthors.filter (fun l => l.entryId == eid)).length

/-! ### Owner-author detection and the persistence bridges
(citation_parser.py lines 47-69, 1192-1263, 1484-1554). -/

/-- `ANUM_NAMES` (lines 48-55). -/
def anumNames : List Str :=
  ["Kazerouni, A. S.".data, "Kazerouni, A.S.".data, "Syed, A. K.".data,
   "Syed, A.K.".data, "Syed A. K.".data, "Syed A.K.".data]

/-- `is_anum_author` (lines 63-69). -/
def is_anum_author (name : Str) : Bool :=
  let normalized := normalize_author_name name
  anumNames.any (fun a => lowerS (normalize_author_name a) = lowerS normalized)

/-- The `Entry(...)` built from a parsed record (lines 1209-1227 and
1500-1518; identical field lists, `anum_position` left unset). -/
def entryOfParsed (p : CitRec) : EntryRow :=
  { type := p.type, title := p.title, year := p.year, venue := p.venue,
    volume := p.volume, issue := p.issue, pages := p.pages, doi := p.doi,
    abstractNumber := p.abstractNumber, date := p.date,
    location := p.location, status := p.status, abstract := p.abstract,
    url := p.url, keywords := p.keywords, subjectArea := p.subjectArea,
    citationCount := p.citationCount }

/-- The author loop of `create_entry_from_citation` (lines 1240-1256): skip
blank/short names, create-or-reuse the author under the raw name, link at the
1-based position with the first-author flag, track the owner position. -/
def citationAuthorsLoop (eid : Nat) (firstPos : List Nat) :
    Db → Nat → Option Nat → List Str → Db × Option Nat
  | db, _, anumPos, [] => (db, anumPos)
  | db, pos, anumPos, name :: rest =>
    if name.isEmpty || name.length < 3 then
      citationAuthorsLoop eid firstPos db (pos + 1) anumPos rest
    else
      let isAnum := is_anum_author name
      let anumPos2 := if isAnum && anumPos = none then some pos else anumPos
      let q := createAuthor db { name := name, isAnum := isAnum }
      let db2 := addEntryAuthor q.1
        { entryId := eid, authorId := q.2, position := pos,
          isFirstAuthor := firstPos.contains pos }
      citationAuthorsLoop eid firstPos db2 (pos + 1) anumPos2 rest

/-- `create_entry_from_citation` (lines 1192-1263) applied to an
already-parsed record (`parse_citation` is deterministic, so the wrapper
below composes it).  On a duplicate, returns the existing id with no author
writes.  The final `update_entry` receives an `Entry` whose `id` is still
`None` (the source never assigns it on this path), so it is a no-op. -/
def createEntryFromParsed (db : Db) (p : CitRec) : Db × Option Nat × Bool :=
  let entry := entryOfParsed p
  let r := createEntry db entry true
  if !r.2.2 then (r.1, some r.2.1, false)
  else
    let l := citationAuthorsLoop r.2.1 p.firstAuthorPositions r.1 1 none p.authors
    let db3 := match l.2 with
      | some ap => (updateEntry l.1 { entry with anumPosition := some ap }).1
      | none => l.1
    (db3, some r.2.1, true)

/-- `create_entry_from_citation` including the parse step. -/
def create_entry_from_citation (env : ProviderEnv) (db : Db) (s : Str)
    (entryType : Str) : Db × Option Nat × Bool :=
  match parseCitation env s entryType with
  | none => (db, none, false)
  | some p => createEntryFromParsed db p

/-- The author loop of `create_entry_from_csl_json` (lines 1530-1546):
same as the citation loop except the stored name is normalised and
`is_first_author` is always `False`. -/
def cslAuthorsLoop (eid : Nat) :
    Db → Nat → Option Nat → List Str → Db × Option Nat
  | db, _, anumPos, [] => (db, anumPos)
  | db, pos, anumPos, name :: rest =>
    if name.isEmpty || name.length < 3 then
      cslAuthorsLoop eid db (pos + 1) anumPos rest
    else
      let isAnum := is_anum_author name
      let anumPos2 := if isAnum && anumPos = none then some pos else anumPos
      let q := createAuthor db { name := normalize_author_name name, isAnum := isAnum }
      let db2 := addEntryAuthor q.1
        { entryId := eid, authorId := q.2, position := pos,
          isFirstAuthor := false }
      cslAuthorsLoop eid db2 (pos + 1) anumPos2 rest

/-- `create_entry_from_csl_json` (lines 1484-1554).  Unlike the citation
path, this one does assign `entry.id` before the owner-position update. -/
def create_entry_from_csl_json (db : Db) (item : CslItem) :
    Db × Option Nat × Bool :=
  match parseCslJsonItem item with
  | none => (db, none, false)
  | some p =>
    let entry := entryOfParsed p
    let r := createEntry db entry true
    if !r.2.2 then (r.1, some r.2.1, false)
    else
      let l := cslAuthorsLoop r.2.1 r.1 1 none p.authors
      let db3 := match l.2 with
        | some ap =>
          (updateEntry l.1 { entry with id := some r.2.1, anumPosition := some ap }).1
        | none => l.1
      (db3, some r.2.1, true)

/-- The refreshed `Entry` built by `enrich_entry_from_crossref`
(app.py lines 118-138) once the Crossref lookup succeeded: every field but
`citation_count` is fill-only-if-missing (or kept unchanged);
`citation_count` is always replaced by the provider's value. -/
def enrichEntryFromCrossref (entry : EntryRow) (m : CrossrefMeta) : EntryRow :=
  { id := entry.id,
    type := entry.type,
    -- `entry.title or metadata.get('title') or entry.title`
    title :=
      if !entry.title.isEmpty then entry.title
      else
        match m.title with
        | some t => if !t.isEmpty then t else entry.title
        | none => entry.title,
    year := pyOrI entry.year m.year,
    venue := pyOrS entry.venue m.venue,
    volume := pyOrS entry.volume m.volume,
    issue := pyOrS entry.issue m.issue,
    pages := pyOrS entry.pages m.pages,
    doi := entry.doi,
    abstractNumber := entry.abstractNumber,
    date := entry.date,
    location := entry.location,
    status := entry.status,
    abstract := pyOrS entry.abstract m.abstract,
    url := pyOrS entry.url m.url,
    keywords := pyOrS entry.keywords m.keywords,
    subjectArea := pyOrS entry.subjectArea m.subjectArea,
    citationCount := m.citationCount,
    anumPosition := entry.anumPosition }

/-- The DOI-cleaning preamble of `lookup_doi_metadata` (lines 330-337):
strip, then remove a leading `doi:` / `https://doi.org/` /
`http://dx.doi.org/`, re-stripping after each removal. -/
def cleanDoiForLookup (doi : Str) : Str :=
  let a := pyStrip doi
  let b := if "doi:".data.isPrefixOf a then pyStrip (a.drop 4) else a
  let c := if "https://doi.org/".data.isPrefixOf b then pyStrip (b.drop 16) else b
  if "http://dx.doi.org/".data.isPrefixOf c then pyStrip (c.drop 18) else c

/-! ## Helper lemmas -/

theorem pyStrip_length_le (s : Str) : (pyStrip s).length ≤ s.length := by
  unfold pyStrip
  calc ((s.dropWhile isPySpace).reverse.dropWhile isPySpace).reverse.length
      = ((s.dropWhile isPySpace).reverse.dropWhile isPySpace).length := by
        simp
    _ ≤ (s.dropWhile isPySpace).reverse.length := length_dropWhile_le_self _ _
    _ = (s.dropWhile isPySpace).length := by simp
    _ ≤ s.length := length_dropWhile_le_self _ _

theorem head?_filter {α : Type} (p : α → Bool) (l : List α) :
    (l.filter p).head? = l.find? p := by
  induction l with
  | nil => rfl
  | cons a rest ih =>
    by_cases h : p a
    · simp [List.filter_cons, List.find?_cons, h]
    · simp [List.filter_cons, List.find?_cons, h, ih]

theorem createAuthor_entries (db : Db) (a : AuthorRow) :
    (createAuthor db a).1.entries = db.entries := by
  unfold createAuthor
  cases db.authors.find? (fun r => r.name == a.name) <;> rfl

theorem createAuthor_nextEntryId (db : Db) (a : AuthorRow) :
    (createAuthor db a).1.nextEntryId = db.nextEntryId := by
  unfold createAuthor
  cases db.authors.find? (fun r => r.name == a.name) <;> rfl

theorem createAuthor_entryAuthors (db : Db) (a : AuthorRow) :
    (createAuthor db a).1.entryAuthors = db.entryAuthors := by
  unfold createAuthor
  cases db.authors.find? (fun r => r.name == a.name) <;> rfl

theorem citationAuthorsLoop_entries (eid : Nat) (fp : List Nat) :
    ∀ (authors : List Str) (db : Db) (pos : Nat) (ap : Option Nat),
      (citationAuthorsLoop eid fp db pos ap authors).1.entries = db.entries ∧
      (citationAuthorsLoop eid fp db pos ap authors).1.nextEntryId = db.nextEntryId := by
  intro authors
  induction authors with
  | nil => intro db pos ap; exact ⟨rfl, rfl⟩
  | cons name rest ih =>
    intro db pos ap
    unfold citationAuthorsLoop
    by_cases h : (name.isEmpty || decide (name.length < 3)) = true
    · rw [if_pos h]
      exact ih db (pos + 1) ap
    · rw [if_neg h]
      refine ⟨?_, ?_⟩
      · rw [(ih _ _ _).1]
        simp [addEntryAuthor, createAuthor_entries]
      · rw [(ih _ _ _).2]
        simp [addEntryAuthor, createAuthor_nextEntryId]

theorem updateEntry_id_none (db : Db) (e : EntryRow) (h : e.id = none) :
    updateEntry db e = (db, false) := by
  unfold updateEntry
  rw [h]

/-! ## Claim theorems -/

/-- Claim C7: identifier extraction is prefix-form-insensitive —
`extract_doi` yields `10.1/X` both from `doi:10.1/X` and from
`https://doi.org/10.1/X` — and the DOI-cleaning step of
`lookup_doi_metadata`, applied to an already-clean identifier (one with no
surrounding whitespace and no `doi:`/URL prefix), returns it unchanged. -/
theorem c7_identifier_cleanup :
    extract_doi "doi:10.1/X".data = some "10.1/X".data ∧
    extract_doi "https://doi.org/10.1/X".data = some "10.1/X".data ∧
    ∀ s : Str, pyStrip s = s →
      "doi:".data.isPrefixOf s = false →
      "https://doi.org/".data.isPrefixOf s = false →
      "http://dx.doi.org/".data.isPrefixOf s = false →
      cleanDoiForLookup s = s := by
  refine ⟨by decide, by decide, ?_⟩
  intro s h0 h1 h2 h3
  unfold cleanDoiForLookup
  simp [h0, h1, h2, h3]

/-- Witness for C7's hypothesis-bearing conjunct, at the already-clean
identifier `10.1/X`. -/
theorem c7_witness :
    pyStrip "10.1/X".data = "10.1/X".data ∧
    cleanDoiForLookup "10.1/X".data = "10.1/X".data :=
  ⟨by decide,
   c7_identifier_cleanup.2.2 "10.1/X".data (by decide) (by decide) (by decide)
     (by decide)⟩

/-- Claim C8: `parse_csl_json_item` on
`{title: "X", author: [{family: "Doe", given: "A"}], type: "poster",
number: "42"}` yields category `poster_abstract`, authors exactly
`["Doe, A"]` (input order, family-comma-given, not normalised), title `"X"`
unchanged, and abstract_number `"42"`; every other field is empty. -/
theorem c8_csl_poster_item :
    parseCslJsonItem
      { title := some "X".data,
        author := some [{ family := "Doe".data, given := "A".data }],
        type := some "poster".data, number := some "42".data } =
      some { type := "poster_abstract".data, title := "X".data,
             authors := ["Doe, A".data], abstractNumber := some "42".data } := by
  rfl

/-- Claim C10: `create_author` with a name equal to a stored author's name
returns the stored id and leaves the store entirely unchanged (in particular
the stored `is_anum` flag survives even when the argument's flag differs,
since the argument's flag is not consulted at all on this path); a new row is
inserted, with a fresh id, only when no exact name match exists. -/
theorem c10_author_reuse (db : Db) (a : AuthorRow) :
    (∀ r : AuthorRow, db.authors.find? (fun x => x.name == a.name) = some r →
      createAuthor db a = (db, r.id.getD 0)) ∧
    (db.authors.find? (fun x => x.name == a.name) = none →
      createAuthor db a =
        ({ db with authors := db.authors ++ [{ a with id := some db.nextAuthorId }],
                   nextAuthorId := db.nextAuthorId + 1 }, db.nextAuthorId)) := by
  constructor
  · intro r h
    unfold createAuthor
    rw [h]
  · intro h
    unfold createAuthor
    rw [h]

/-- Witness for C10 at a concrete store: the stored `Doe, A.` row (with
`is_anum = false`) is reused unchanged although the argument carries
`is_anum = true`, and an unmatched name is inserted fresh. -/
theorem c10_witness :
    ({ authors := [{ id := some 1, name := "Doe, A.".data, isAnum := false }],
       nextAuthorId := 2 : Db }).authors.find?
        (fun x => x.name == "Doe, A.".data) =
      some { id := some 1, name := "Doe, A.".data, isAnum := false } ∧
    createAuthor
      { authors := [{ id := some 1, name := "Doe, A.".data, isAnum := false }],
        nextAuthorId := 2 }
      { name := "Doe, A.".data, isAnum := true } =
      ({ authors := [{ id := some 1, name := "Doe, A.".data, isAnum := false }],
         nextAuthorId := 2 }, 1) :=
  ⟨by decide,
   (c10_author_reuse
      { authors := [{ id := some 1, name := "Doe, A.".data, isAnum := false }],
        nextAuthorId := 2 }
      { name := "Doe, A.".data, isAnum := true }).1
     { id := some 1, name := "Doe, A.".data, isAnum := false } (by decide)⟩

/-- The identifier test of `check_duplicate`: the first stored row with the
probe's DOI, attempted only when the probe has a truthy DOI. -/
def doiHitQ (db : Db) (e : EntryRow) : Option EntryRow :=
  if truthyS e.doi then db.entries.find? (fun r => r.doi == e.doi) else none

/-- The title+year test of `check_duplicate`: the first stored row whose
`LOWER(TRIM(title))` equals the probe's `lower().strip()` title with equal
year, attempted only when the probe has a truthy title and year. -/
def tyHitQ (db : Db) (e : EntryRow) : Option EntryRow :=
  if !e.title.isEmpty && truthyI e.year then
    db.entries.find? (fun r =>
      lowerS (sqlTrim r.title) == pyStrip (lowerS e.title) && r.year == e.year)
  else none

/-- The title-only test of `check_duplicate`. -/
def tHitQ (db : Db) (e : EntryRow) : Option EntryRow :=
  if !e.title.isEmpty then
    db.entries.find? (fun r => lowerS (sqlTrim r.title) == pyStrip (lowerS e.title))
  else none

/-- Claim C5: `check_duplicate` applies its tests in a fixed order with the
first match winning — (a) identifier exact match; (b) otherwise normalised
title plus equal year (first stored match); (c) otherwise normalised title
alone; and `None` when no test matches.  The title normalisations are the
source's: SQLite `LOWER(TRIM(...))` on the stored side (spaces only), Python
`.lower().strip()` on the probe side. -/
theorem c5_duplicate_order (db : Db) (e : EntryRow) :
    (∀ r : EntryRow, doiHitQ db e = some r →
      checkDuplicate db e = some (rowId r)) ∧
    (doiHitQ db e = none → ∀ r : EntryRow, tyHitQ db e = some r →
      checkDuplicate db e = some (rowId r)) ∧
    (doiHitQ db e = none → tyHitQ db e = none → ∀ r : EntryRow,
      tHitQ db e = some r → checkDuplicate db e = some (rowId r)) ∧
    (doiHitQ db e = none → tyHitQ db e = none → tHitQ db e = none →
      checkDuplicate db e = none) := by
  have hshape : checkDuplicate db e =
      (match doiHitQ db e with
       | some r => some (rowId r)
       | none =>
         match tyHitQ db e with
         | some r => some (rowId r)
         | none =>
           match tHitQ db e with
           | some r => some (rowId r)
           | none => none) := by
    unfold checkDuplicate doiHitQ tyHitQ tHitQ
    simp only [apply_ite List.head?, head?_filter, List.head?_nil]
  refine ⟨?_, ?_, ?_, ?_⟩
  · intro r h; rw [hshape, h]
  · intro h0 r h; rw [hshape, h0, h]
  · intro h0 h1 r h; rw [hshape, h0, h1, h]
  · intro h0 h1 h2; rw [hshape, h0, h1, h2]

/-- Witness for C5 at a concrete store: a probe without DOI whose title+year
test hits the first matching stored row. -/
theorem c5_witness :
    doiHitQ
      { entries := [{ id := some 1, title := "A Title".data, year := some 2020 },
                    { id := some 2, title := "a title ".data, year := some 2020 }] }
      { title := "A TITLE".data, year := some 2020 } = none ∧
    tyHitQ
      { entries := [{ id := some 1, title := "A Title".data, year := some 2020 },
                    { id := some 2, title := "a title ".data, year := some 2020 }] }
      { title := "A TITLE".data, year := some 2020 } =
      some { id := some 1, title := "A Title".data, year := some 2020 } ∧
    checkDuplicate
      { entries := [{ id := some 1, title := "A Title".data, year := some 2020 },
                    { id := some 2, title := "a title ".data, year := some 2020 }] }
      { title := "A TITLE".data, year := some 2020 } = some 1 :=
  ⟨by decide, by decide,
   (c5_duplicate_order
      { entries := [{ id := some 1, title := "A Title".data, year := some 2020 },
                    { id := some 2, title := "a title ".data, year := some 2020 }] }
      { title := "A TITLE".data, year := some 2020 }).2.1 (by decide)
     { id := some 1, title := "A Title".data, year := some 2020 } (by decide)⟩

/-- Counterexample to claim C4.  First: on the lowercased text
`"poster presentation at the annual meeting"` (which contains the meeting
keywords and the poster keyword) with default `publication`, the shared
category rule returns `oral_presentation`, not the `poster_abstract` the
claim requires whenever a poster/abstract keyword is present.  Second: the
rule is not applied identically on every fusion path — on the pure-fallback
path the text `"a book of examples"` is classified `book_chapter` while the
shared rule of the other paths returns the caller's default. -/
theorem c4_counterexample :
    determine_entry_type "publication".data
        "poster presentation at the annual meeting".data =
      "oral_presentation".data ∧
    containsSub "poster presentation at the annual meeting".data
        "poster".data = true ∧
    "oral_presentation".data ≠ "poster_abstract".data ∧
    (fallbackEntryType "publication".data "a book of examples".data).1 =
      "book_chapter".data ∧
    determine_entry_type "publication".data "a book of examples".data =
      "publication".data := by
  refine ⟨by decide, by decide, by decide, by decide, by decide⟩

/-- Claim C4 as amended: for a default that is neither `oral_presentation`
nor `poster_abstract`, a meeting-type keyword classifies as
`oral_presentation` when an oral/presentation keyword is present, else
`poster_abstract` when a poster/abstract keyword is present, else
`oral_presentation`; without a meeting keyword, `patent` when "patent"
appears, `book_chapter` when "chapter" appears, else the caller's default —
and the pure-fallback path's category agrees with the shared rule on every
text not containing "book" (the fallback path additionally maps "book" to
`book_chapter`). -/
theorem c4_category_rule (d t : Str)
    (h1 : d ≠ "oral_presentation".data) (h2 : d ≠ "poster_abstract".data) :
    (determine_entry_type d t =
      if containsSub t "meeting".data || containsSub t "symposium".data ||
          containsSub t "conference".data || containsSub t "workshop".data ||
          containsSub t "retreat".data || containsSub t "annual".data then
        if containsSub t "oral".data || containsSub t "presentation".data then
          "oral_presentation".data
        else if containsSub t "poster".data || containsSub t "abstract".data then
          "poster_abstract".data
        else "oral_presentation".data
      else if containsSub t "patent".data then "patent".data
      else if containsSub t "chapter".data then "book_chapter".data
      else d) ∧
    (∀ d2 t2 : Str, containsSub t2 "book".data = false →
      (fallbackEntryType d2 t2).1 = determine_entry_type d2 t2) := by
  constructor
  · unfold determine_entry_type
    rw [if_neg]
    simp only [Bool.or_eq_true, decide_eq_true_eq, not_or]
    exact ⟨h1, h2⟩
  · intro d2 t2 hb
    unfold fallbackEntryType determine_entry_type
    rw [hb]
    by_cases hop : (decide (d2 = "oral_presentation".data) ||
        decide (d2 = "poster_abstract".data)) = true
    · rw [if_pos hop, if_pos hop]
      split <;> (try split) <;> rfl
    · rw [if_neg hop, if_neg hop]
      split
      · split <;> (try split) <;> rfl
      · split
        · rfl
        · split
          · next hc => rw [if_pos (by simpa using hc)]
          · next hc => rw [if_neg (by simpa using hc)]

/-- Witness for C4's amended rule at default `publication` and the meeting
text "annual meeting poster session". -/
theorem c4_witness :
    ("publication".data ≠ "oral_presentation".data ∧
     "publication".data ≠ "poster_abstract".data ∧
     containsSub "annual meeting poster session".data "book".data = false) ∧
    (determine_entry_type "publication".data "annual meeting poster session".data =
      "poster_abstract".data ∧
     (fallbackEntryType "publication".data "annual meeting poster session".data).1 =
      determine_entry_type "publication".data "annual meeting poster session".data) :=
  ⟨⟨by decide, by decide, by decide⟩,
   ⟨by
      rw [(c4_category_rule "publication".data
        "annual meeting poster session".data (by decide) (by decide)).1]
      decide,
    (c4_category_rule "publication".data "annual meeting poster session".data
       (by decide) (by decide)).2 "publication".data
      "annual meeting poster session".data (by decide)⟩⟩

/-- The input of end-to-end scenario 1. -/
def c3Input : Str :=
  "Smith, J. A novel method. Journal of Testing 12, 345 (2021). doi:10.1/abc".data

/-- Claim C3 as amended: with every provider unavailable, the scenario-1
input parses to category `publication`, year 2021, identifier `10.1/abc` —
but with title `"Journal of Testing 12, 345 (2021)"` (the title-boundary
regex requires a 20-character run, so `A novel method` is skipped and the
longest later segment wins), venue `"Testing"` (from volume pattern 1, which
also sets volume 12 and issue 345), and authors
`["Smith", "J. A novel method"]` (the author block extends to the second
period), with position 1 defaulted as first author. -/
theorem c3_fallback_scenario :
    parseCitation envNone c3Input "publication".data =
      some { type := "publication".data,
             title := "Journal of Testing 12, 345 (2021)".data,
             year := some 2021, venue := some "Testing".data,
             volume := some "12".data, issue := some "345".data,
             doi := some "10.1/abc".data,
             authors := ["Smith".data, "J. A novel method".data],
             firstAuthorPositions := [1] } := by
  rfl

/-- Counterexample to claim C3: on the scenario-1 input the pipeline's
title, venue and author list all differ from the claimed
`"A novel method"` / `"Journal of Testing"` / `["Smith, J."]`. -/
theorem c3_counterexample :
    (parseCitation envNone c3Input "publication".data).map
        (fun r => (r.title, r.venue, r.authors)) =
      some ("Journal of Testing 12, 345 (2021)".data, some "Testing".data,
            ["Smith".data, "J. A novel method".data]) ∧
    ("Journal of Testing 12, 345 (2021)".data, some "Testing".data,
        ["Smith".data, "J. A novel method".data]) ≠
      ("A novel method".data, some "Journal of Testing".data,
        (["Smith, J.".data] : List Str)) := by
  exact ⟨by rfl, by decide⟩

/-- An OpenAlex search result carrying an abstract, for the C1 scenario. -/
def c1Oa : OpenAlexMeta :=
  { title := "T".data, authors := some ["Doe, X".data], venue := some "V".data,
    year := some 2021, doi := some "10.5/z".data, abstract := some "A".data,
    keywords := some "K".data, citationCount := some 3 }

/-- A Crossref record for the same DOI carrying a different abstract. -/
def c1Cr : CrossrefMeta :=
  { title := some "T".data, doi := "10.5/z".data, abstract := some "B".data }

/-- Environment with only the OpenAlex search available. -/
def c1EnvNoCr : ProviderEnv :=
  { openalexAvailable := true, openalex := fun _ _ _ _ => some c1Oa }

/-- The same environment with the Crossref registry lookup also available. -/
def c1EnvCr : ProviderEnv :=
  { openalexAvailable := true, habaneroAvailable := true,
    openalex := fun _ _ _ _ => some c1Oa, crossref := fun _ => some c1Cr }

/-- A DOI-free citation that reaches the search-assisted fusion path. -/
def c1Input : Str :=
  "Smith, J. A novel method. Journal of Testing 12, 345 (2021).".data

/-- Counterexample to claim C1: on the search-assisted path the OpenAlex
search stage populates `abstract` (with only that provider available the
fused record's abstract is `"A"`), yet when the later Crossref registry
lookup is also available its merge replaces that populated value with the
registry's `"B"` — a later stage's merge overwrites a field populated by an
earlier stage, for a field other than `citation_count`. -/
theorem c1_counterexample :
    (parseCitation c1EnvNoCr c1Input "publication".data).map CitRec.abstract =
      some (some "A".data) ∧
    (parseCitation c1EnvCr c1Input "publication".data).map CitRec.abstract =
      some (some "B".data) ∧
    (some "A".data : Option Str) ≠ some "B".data := by
  exact ⟨by rfl, by rfl, by decide⟩

/-- Claim C1 as amended: the OpenAlex fill-in merge never replaces a
populated enrichment field; the Crossref merges of the GROBID and
pure-fallback paths can only fill fields their base records never populate
(neither the GROBID dictionary nor the regex fallback ever supplies
abstract/url/keywords/subject_area/citation_count) — while on the
search-assisted path the final Crossref merge takes precedence over values
the OpenAlex stage populated (the counterexample above); and the
`enrich_entry_from_crossref` refresh always overwrites `citation_count` with
the provider's value while treating every other enrichment field as
fill-only-if-missing. -/
theorem c1_enrichment_monotonicity :
    (∀ (m : WorkMeta) (oa : OpenAlexMeta),
      (truthyS m.abstract = true → (fillFromOpenAlex m oa).abstract = m.abstract) ∧
      (truthyS m.url = true → (fillFromOpenAlex m oa).url = m.url) ∧
      (truthyS m.keywords = true → (fillFromOpenAlex m oa).keywords = m.keywords) ∧
      (truthyI m.citationCount = true →
        (fillFromOpenAlex m oa).citationCount = m.citationCount) ∧
      (fillFromOpenAlex m oa).subjectArea = m.subjectArea) ∧
    (∀ g : GrobidMeta,
      (workOfGrobid g).abstract = none ∧ (workOfGrobid g).url = none ∧
      (workOfGrobid g).keywords = none ∧ (workOfGrobid g).subjectArea = none ∧
      (workOfGrobid g).citationCount = none) ∧
    (∀ (s : Str) (r : CitRec), parseCitationFallback s = some r →
      r.abstract = none ∧ r.url = none ∧ r.keywords = none ∧
      r.subjectArea = none ∧ r.citationCount = none) ∧
    (∀ (e : EntryRow) (m : CrossrefMeta),
      (enrichEntryFromCrossref e m).citationCount = m.citationCount ∧
      (truthyS e.abstract = true →
        (enrichEntryFromCrossref e m).abstract = e.abstract) ∧
      (truthyS e.url = true → (enrichEntryFromCrossref e m).url = e.url) ∧
      (truthyS e.keywords = true →
        (enrichEntryFromCrossref e m).keywords = e.keywords) ∧
      (truthyS e.subjectArea = true →
        (enrichEntryFromCrossref e m).subjectArea = e.subjectArea)) := by
  refine ⟨?_, ?_, ?_, ?_⟩
  · intro m oa
    refine ⟨?_, ?_, ?_, ?_, rfl⟩ <;> intro h <;>
      simp [fillFromOpenAlex, h]
  · intro g
    exact ⟨rfl, rfl, rfl, rfl, rfl⟩
  · intro s r h
    unfold parseCitationFallback at h
    dsimp only at h
    split at h
    · exact absurd h (by simp)
    · split at h
      · exact absurd h (by simp)
      · split at h
        · cases h
          exact ⟨rfl, rfl, rfl, rfl, rfl⟩
        · split at h
          · exact absurd h (by simp)
          · split at h
            · exact absurd h (by simp)
            · split at h
              · exact absurd h (by simp)
              · cases h
                exact ⟨rfl, rfl, rfl, rfl, rfl⟩
  · intro e m
    refine ⟨rfl, ?_, ?_, ?_, ?_⟩ <;> intro h <;>
      simp [enrichEntryFromCrossref, pyOrS, h]

/-- Witness for C1's hypothesis-bearing conjuncts: a working record with a
populated abstract survives the OpenAlex fill-in; the fallback parse of the
C1 citation carries no enrichment fields; and a stored entry with a
populated abstract keeps it under the Crossref refresh while its citation
count is overwritten. -/
theorem c1_witness :
    truthyS (some "X".data) = true ∧
    (fillFromOpenAlex { title := "T".data, abstract := some "X".data } c1Oa).abstract =
      some "X".data ∧
    ((parseCitationFallback c1Input).getD {}).abstract = none ∧
    (enrichEntryFromCrossref { abstract := some "X".data } c1Cr).abstract =
      some "X".data ∧
    (enrichEntryFromCrossref { abstract := some "X".data } c1Cr).citationCount =
      c1Cr.citationCount :=
  ⟨by decide,
   (c1_enrichment_monotonicity.1 { title := "T".data, abstract := some "X".data }
      c1Oa).1 (by decide),
   (c1_enrichment_monotonicity.2.2.1 c1Input ((parseCitationFallback c1Input).getD {})
      (by rfl)).1,
   (c1_enrichment_monotonicity.2.2.2 { abstract := some "X".data } c1Cr).2.1
     (by decide),
   (c1_enrichment_monotonicity.2.2.2 { abstract := some "X".data } c1Cr).1⟩

/-- An input matching the book-chapter pattern whose period-split has only
one non-trivial segment (twenty spaces between `A` and the second period). -/
def c6Book : Str := "Z. A                    . in B (P, 2020)".data

/-- Counterexample to claim C6: an input whose period-delimited split yields
fewer than two non-trivial segments (here exactly one) on which the regex
fallback parser nonetheless returns a record — the book-chapter pattern
matches and returns before the two-segment check is reached. -/
theorem c6_counterexample :
    (nontrivialParts c6Book).length = 1 ∧ 20 ≤ c6Book.length ∧
    parseCitationFallback c6Book =
      some { title := "A".data, year := some 2020, venue := some "B".data } := by
  exact ⟨by rfl, by decide, by rfl⟩

/-- Claim C6 as amended: the regex fallback parser returns an absent result
(never an exception — the embedding is a total function) for every input
shorter than 20 characters; for every input whose trimmed text has fewer than
two non-trivial period-delimited segments, provided the book-chapter pattern
does not match (when it matches, a record is returned before the segment
check, as the counterexample shows); and, again absent a book-chapter match,
whenever title selection over the segments fails. -/
theorem c6_fallback_failure_modes :
    (∀ s : Str, s.length < 20 → parseCitationFallback s = none) ∧
    (∀ s : Str, bookChapterSearch (pyStrip s) = none →
      (nontrivialParts (pyStrip s)).length < 2 →
      parseCitationFallback s = none) ∧
    (∀ s : Str, bookChapterSearch (pyStrip s) = none →
      selectTitle (nontrivialParts (pyStrip s)) = none →
      parseCitationFallback s = none) := by
  refine ⟨?_, ?_, ?_⟩
  · intro s h
    have hc : ((pyStrip s).isEmpty || decide ((pyStrip s).length < 20)) = true := by
      have := pyStrip_length_le s
      simp only [Bool.or_eq_true, decide_eq_true_eq]
      right; omega
    unfold parseCitationFallback
    dsimp only
    rw [if_pos hc]
  · intro s hb hp
    unfold parseCitationFallback
    dsimp only
    rw [hb]
    split
    · rfl
    · split <;> simp_all
  · intro s hb hs
    unfold parseCitationFallback
    dsimp only
    rw [hb]
    split
    · rfl
    · split <;> simp_all

/-- Witness for C6's three hypothesis-bearing conjuncts, at a short input, a
period-free input, and an input of six two-character segments. -/
theorem c6_witness :
    ("short".data.length < 20 ∧ parseCitationFallback "short".data = none) ∧
    (bookChapterSearch (pyStrip "aaaaaaaaaaaaaaaaaaaaaaaaa".data) = none ∧
     (nontrivialParts (pyStrip "aaaaaaaaaaaaaaaaaaaaaaaaa".data)).length < 2 ∧
     parseCitationFallback "aaaaaaaaaaaaaaaaaaaaaaaaa".data = none) ∧
    (bookChapterSearch (pyStrip "ab. cd. ef. gh. ij. kl".data) = none ∧
     selectTitle (nontrivialParts (pyStrip "ab. cd. ef. gh. ij. kl".data)) = none ∧
     parseCitationFallback "ab. cd. ef. gh. ij. kl".data = none) :=
  ⟨⟨by decide, c6_fallback_failure_modes.1 "short".data (by decide)⟩,
   ⟨by decide, by decide,
    c6_fallback_failure_modes.2.1 "aaaaaaaaaaaaaaaaaaaaaaaaa".data (by decide)
      (by decide)⟩,
   ⟨by decide, by decide,
    c6_fallback_failure_modes.2.2 "ab. cd. ef. gh. ij. kl".data (by decide)
      (by decide)⟩⟩

/-- Claim C2 as amended: for a fused record with a truthy title and year and
no DOI, whose title's surrounding whitespace survives both normalisations
identically (SQLite `TRIM` strips only spaces while the Python probe strips
all whitespace — they agree on every title without exotic leading/trailing
whitespace, in particular on every title the regex fallback produces, which
is fully stripped), and which is not yet a duplicate: the first submission
creates a fresh entry (`is_new = true`, id = next id) and the second returns
the same id with `is_new = false`, leaving the store — in particular the
entry's author-link count — unchanged. -/
theorem c2_idempotent_resubmission (db : Db) (p : CitRec)
    (htitle : p.title.isEmpty = false)
    (hyear : truthyI p.year = true)
    (hdoi : truthyS p.doi = false)
    (hnorm : lowerS (sqlTrim p.title) = pyStrip (lowerS p.title))
    (hdup : checkDuplicate db (entryOfParsed p) = none) :
    (createEntryFromParsed db p).2.2 = true ∧
    (createEntryFromParsed db p).2.1 = some db.nextEntryId ∧
    (createEntryFromParsed (createEntryFromParsed db p).1 p).2.2 = false ∧
    (createEntryFromParsed (createEntryFromParsed db p).1 p).2.1 =
      (createEntryFromParsed db p).2.1 ∧
    (createEntryFromParsed (createEntryFromParsed db p).1 p).1 =
      (createEntryFromParsed db p).1 ∧
    linkCount (createEntryFromParsed (createEntryFromParsed db p).1 p).1
        db.nextEntryId =
      linkCount (createEntryFromParsed db p).1 db.nextEntryId := by
  have hdoiE : truthyS (entryOfParsed p).doi = false := hdoi
  have htitleE : (entryOfParsed p).title.isEmpty = false := htitle
  have hyearE : truthyI (entryOfParsed p).year = true := hyear
  -- the title+year filter over the old store is empty (from `hdup`)
  have hstage2 : (db.entries.filter (fun r =>
      lowerS (sqlTrim r.title) == pyStrip (lowerS (entryOfParsed p).title) &&
        r.year == (entryOfParsed p).year)) = [] := by
    rcases hf : (db.entries.filter (fun r =>
        lowerS (sqlTrim r.title) == pyStrip (lowerS (entryOfParsed p).title) &&
          r.year == (entryOfParsed p).year)).head? with _ | r
    · exact List.head?_eq_none_iff.mp hf
    · exfalso
      unfold checkDuplicate at hdup
      rw [hdoiE] at hdup
      simp only [Bool.false_eq_true, if_false] at hdup
      rw [if_pos (by rw [htitleE, hyearE]; rfl)] at hdup
      rw [hf] at hdup
      simp at hdup
  -- the first call inserts a fresh row
  have h1 : createEntry db (entryOfParsed p) true =
      ({ db with
          entries := db.entries ++
            [{ entryOfParsed p with id := some db.nextEntryId }],
          nextEntryId := db.nextEntryId + 1 }, db.nextEntryId, true) := by
    unfold createEntry
    rw [if_pos rfl, hdup]
  have hnew1 : (createEntry db (entryOfParsed p) true).2.2 = true := by rw [h1]
  have hid1 : (createEntry db (entryOfParsed p) true).2.1 = db.nextEntryId := by
    rw [h1]
  have hdbE : (createEntry db (entryOfParsed p) true).1.entries =
      db.entries ++ [{ entryOfParsed p with id := some db.nextEntryId }] := by
    rw [h1]
  have hr1 : createEntryFromParsed db p =
      ((citationAuthorsLoop (createEntry db (entryOfParsed p) true).2.1
          p.firstAuthorPositions (createEntry db (entryOfParsed p) true).1 1 none
          p.authors).1,
        some (createEntry db (entryOfParsed p) true).2.1, true) := by
    unfold createEntryFromParsed
    dsimp only
    rw [hnew1]
    simp only [Bool.not_true, Bool.false_eq_true, if_false]
    rcases hl : (citationAuthorsLoop (createEntry db (entryOfParsed p) true).2.1
        p.firstAuthorPositions (createEntry db (entryOfParsed p) true).1 1 none
        p.authors).2 with _ | ap
    · rfl
    · dsimp only
      rw [updateEntry_id_none _ _ rfl]
  -- the second duplicate check finds the inserted row
  have hck2 : checkDuplicate (createEntryFromParsed db p).1 (entryOfParsed p) =
      some db.nextEntryId := by
    rw [hr1]
    dsimp only
    unfold checkDuplicate
    rw [hdoiE]
    simp only [Bool.false_eq_true, if_false]
    rw [if_pos (by rw [htitleE, hyearE]; rfl)]
    rw [(citationAuthorsLoop_entries _ _ _ _ _ _).1, hdbE, List.filter_append,
      hstage2]
    have hpred : ((fun r => lowerS (sqlTrim r.title) ==
        pyStrip (lowerS (entryOfParsed p).title) && r.year == (entryOfParsed p).year)
        ({ entryOfParsed p with id := some db.nextEntryId } : EntryRow)) = true := by
      show (lowerS (sqlTrim p.title) == pyStrip (lowerS p.title) &&
        p.year == p.year) = true
      rw [hnorm]
      simp
    simp only [List.nil_append, List.filter_cons, hpred, if_true, List.filter_nil]
    rfl
  have hdupRet : ∀ (dbx : Db) (i : Nat),
      checkDuplicate dbx (entryOfParsed p) = some i →
      createEntryFromParsed dbx p = (dbx, some i, false) := by
    intro dbx i hc
    unfold createEntryFromParsed createEntry
    dsimp only
    rw [if_pos rfl, hc]
    rfl
  have hr2 : createEntryFromParsed (createEntryFromParsed db p).1 p =
      ((createEntryFromParsed db p).1, some db.nextEntryId, false) :=
    hdupRet (createEntryFromParsed db p).1 db.nextEntryId hck2
  refine ⟨?_, ?_, ?_, ?_, ?_, ?_⟩
  · rw [hr1]
  · rw [hr1, hid1]
  · rw [hr2]
  · rw [hr2, hr1, hid1]
  · rw [hr2]
  · rw [hr2]

/-- An OpenAlex result whose title carries a trailing tab, for the C2
counterexample. -/
def c2Oa : OpenAlexMeta :=
  { title := "A novel method\t".data, year := some 2021 }

/-- Environment with only the OpenAlex search available, returning `c2Oa`. -/
def c2Env : ProviderEnv :=
  { openalexAvailable := true, openalex := fun _ _ _ _ => some c2Oa }

/-- A DOI-free citation string for the C2 counterexample. -/
def c2Input : Str :=
  "Jones, B. Another test of things. Journal of Stuff 13, 456 (2021).".data

/-- A plain fused record for the C2 witness. -/
def c2P : CitRec :=
  { type := "publication".data, title := "A novel method".data,
    year := some 2021, authors := ["Smith, J.".data],
    firstAuthorPositions := [1] }

/-- Counterexample to claim C2: a citation whose fused record has a truthy
title and year and no DOI (the title, supplied by the OpenAlex search stage,
ends in a tab character), for which the second submission is **not**
recognised as a duplicate: both submissions return `is_new = true` with
distinct ids.  SQLite's `TRIM` strips only spaces, so the stored
`LOWER(TRIM(title))` keeps the trailing tab, while the Python probe strips
all whitespace — the two normalisations disagree and the title+year and
title-only tests both miss. -/
theorem c2_counterexample :
    (parseCitation c2Env c2Input "publication".data).map
        (fun r => (r.title, r.year, r.doi)) =
      some ("A novel method\t".data, some 2021, none) ∧
    (create_entry_from_citation c2Env {} c2Input "publication".data).2 =
      (some 1, true) ∧
    (create_entry_from_citation c2Env
        (create_entry_from_citation c2Env {} c2Input "publication".data).1
        c2Input "publication".data).2 =
      (some 2, true) := by
  exact ⟨by rfl, by rfl, by rfl⟩

/-- Witness for C2's amended idempotence at an empty store and a plain
record (title `A novel method`, year 2021, no DOI). -/
theorem c2_witness :
    (c2P.title.isEmpty = false ∧ truthyI c2P.year = true ∧
     truthyS c2P.doi = false ∧
     lowerS (sqlTrim c2P.title) = pyStrip (lowerS c2P.title) ∧
     checkDuplicate {} (entryOfParsed c2P) = none) ∧
    ((createEntryFromParsed {} c2P).2.2 = true ∧
     (createEntryFromParsed {} c2P).2.1 = some ({} : Db).nextEntryId ∧
     (createEntryFromParsed (createEntryFromParsed {} c2P).1 c2P).2.2 = false ∧
     (createEntryFromParsed (createEntryFromParsed {} c2P).1 c2P).2.1 =
       (createEntryFromParsed {} c2P).2.1 ∧
     (createEntryFromParsed (createEntryFromParsed {} c2P).1 c2P).1 =
       (createEntryFromParsed {} c2P).1 ∧
     linkCount (createEntryFromParsed (createEntryFromParsed {} c2P).1 c2P).1
         ({} : Db).nextEntryId =
       linkCount (createEntryFromParsed {} c2P).1 ({} : Db).nextEntryId) :=
  ⟨⟨by decide, by decide, by decide, by decide, by rfl⟩,
   c2_idempotent_resubmission {} c2P (by decide) (by decide) (by decide)
     (by decide) (by rfl)⟩

/-- `update_entry` never touches the `entry_authors` table. -/
theorem updateEntry_entryAuthors (db : Db) (e : EntryRow) :
    (updateEntry db e).1.entryAuthors = db.entryAuthors := by
  unfold updateEntry
  cases e.id <;> rfl

/-- `create_entry` never touches the `entry_authors` table. -/
theorem createEntry_entryAuthors (db : Db) (e : EntryRow) (c : Bool) :
    (createEntry db e c).1.entryAuthors = db.entryAuthors := by
  unfold createEntry
  split <;> rfl

/-- Every author link present after the CSL author loop either predates the
loop or links the loop's entry with `is_first_author = false`. -/
theorem cslAuthorsLoop_links (eid : Nat) :
    ∀ (authors : List Str) (db : Db) (pos : Nat) (ap : Option Nat),
      ∀ l ∈ (cslAuthorsLoop eid db pos ap authors).1.entryAuthors,
        l ∈ db.entryAuthors ∨ (l.entryId = eid ∧ l.isFirstAuthor = false) := by
  intro authors
  induction authors with
  | nil => intro db pos ap l hl; exact Or.inl hl
  | cons name rest ih =>
    intro db pos ap l hl
    unfold cslAuthorsLoop at hl
    by_cases h : (name.isEmpty || decide (name.length < 3)) = true
    · rw [if_pos h] at hl
      exact ih db (pos + 1) ap l hl
    · rw [if_neg h] at hl
      rcases ih _ _ _ l hl with hmem | hgood
      · unfold addEntryAuthor at hmem
        dsimp only at hmem
        rcases List.mem_append.mp hmem with hf | hone
        · refine Or.inl ?_
          have hq := List.mem_of_mem_filter hf
          rwa [createAuthor_entryAuthors] at hq
        · rcases List.mem_singleton.mp hone with rfl
          exact Or.inr ⟨rfl, rfl⟩
      · exact Or.inr hgood

/-- Claim C9: every author link written by the CSL-JSON import path carries
`is_first_author = false` — for any store whose existing links do not already
use the fresh entry id, if `create_entry_from_csl_json` reports a new entry,
then every link of that entry in the resulting store has
`is_first_author = false`, whatever the item contains. -/
theorem c9_csl_links_not_first (db : Db) (item : CslItem)
    (hfresh : ∀ l ∈ db.entryAuthors, l.entryId ≠ db.nextEntryId) :
    (create_entry_from_csl_json db item).2.2 = true →
    ∀ l ∈ (create_entry_from_csl_json db item).1.entryAuthors,
      some l.entryId = (create_entry_from_csl_json db item).2.1 →
      l.isFirstAuthor = false := by
  intro hnew l hl hid
  rcases hp : parseCslJsonItem item with _ | p
  · have hres : create_entry_from_csl_json db item = (db, none, false) := by
      unfold create_entry_from_csl_json
      rw [hp]
    rw [hres] at hnew
    exact absurd hnew (by simp)
  · rcases hck : checkDuplicate db (entryOfParsed p) with _ | i
    · -- a fresh entry is inserted
      have hce : createEntry db (entryOfParsed p) true =
          ({ db with
              entries := db.entries ++
                [{ entryOfParsed p with id := some db.nextEntryId }],
              nextEntryId := db.nextEntryId + 1 }, db.nextEntryId, true) := by
        unfold createEntry
        rw [if_pos rfl, hck]
      have hnew1 : (createEntry db (entryOfParsed p) true).2.2 = true := by
        rw [hce]
      have hid1 : (createEntry db (entryOfParsed p) true).2.1 = db.nextEntryId := by
        rw [hce]
      have hceA : (createEntry db (entryOfParsed p) true).1.entryAuthors =
          db.entryAuthors := by
        rw [hce]
      have hres2 : (create_entry_from_csl_json db item).2 =
          (some db.nextEntryId, true) := by
        unfold create_entry_from_csl_json
        rw [hp]
        dsimp only
        rw [hnew1]
        simp only [Bool.not_true, Bool.false_eq_true, if_false]
        rcases (cslAuthorsLoop (createEntry db (entryOfParsed p) true).2.1
            (createEntry db (entryOfParsed p) true).1 1 none p.authors).2 with _ | ap
        · rw [hid1]
        · rw [hid1]
      have hresL : (create_entry_from_csl_json db item).1.entryAuthors =
          (cslAuthorsLoop (createEntry db (entryOfParsed p) true).2.1
            (createEntry db (entryOfParsed p) true).1 1 none
            p.authors).1.entryAuthors := by
        unfold create_entry_from_csl_json
        rw [hp]
        dsimp only
        rw [hnew1]
        simp only [Bool.not_true, Bool.false_eq_true, if_false]
        rcases (cslAuthorsLoop (createEntry db (entryOfParsed p) true).2.1
            (createEntry db (entryOfParsed p) true).1 1 none p.authors).2 with _ | ap
        · rfl
        · dsimp only
          rw [updateEntry_entryAuthors]
      rw [hresL] at hl
      rcases cslAuthorsLoop_links (createEntry db (entryOfParsed p) true).2.1
          p.authors (createEntry db (entryOfParsed p) true).1 1 none l hl with
        hmem | hgood
      · exfalso
        rw [hceA] at hmem
        have hne := hfresh l hmem
        rw [hres2] at hid
        have : l.entryId = db.nextEntryId := by
          simpa using hid
        exact hne this
      · rw [hid1] at hgood
        exact hgood.2
    · -- duplicate: `is_new` is false, contradicting `hnew`
      have hres : create_entry_from_csl_json db item = (db, some i, false) := by
        unfold create_entry_from_csl_json createEntry
        rw [hp]
        dsimp only
        rw [if_pos rfl, hck]
        rfl
      rw [hres] at hnew
      exact absurd hnew (by simp)

/-- A CSL item with two authors for the C9 witness. -/
def c9Item : CslItem :=
  { title := some "Y".data, type := some "poster".data,
    author := some [{ family := "Roe".data, given := "B".data },
                    { family := "Poe".data, given := "C".data }] }

/-- Witness for C9 at an empty store and a two-author poster item. -/
theorem c9_witness :
    (∀ l ∈ ({} : Db).entryAuthors, l.entryId ≠ ({} : Db).nextEntryId) ∧
    (create_entry_from_csl_json {} c9Item).2.2 = true ∧
    ∀ l ∈ (create_entry_from_csl_json {} c9Item).1.entryAuthors,
      some l.entryId = (create_entry_from_csl_json {} c9Item).2.1 →
      l.isFirstAuthor = false :=
  ⟨by intro l hl; exact absurd hl (by simp), by rfl,
   c9_csl_links_not_first {} c9Item
     (by intro l hl; exact absurd hl (by simp)) (by rfl)⟩

end AnumPapers
